import Mathlib

/-!
# NNStreamer Android API: element registry, descriptor cache, surface binder, callback bridge

A shallow embedding of `nnstreamer-native-pipeline.c` and
`nnstreamer-native-customfilter.c`.

Conventions of the embedding.

* Pointers, JNI references and native windows are natural numbers, `0` being `NULL`.
* Every call that leaves the translated functions (pipeline engine, JNI, converters,
  window system) is recorded, in program order, in a list of `Call`s returned next to
  the function's result.
* What an external call answers is an argument of the translated function (the reply the
  collaborator gives if it is asked); whether it is asked at all shows in the returned calls.
* `g_new0` aborts the process when memory runs out, so the `item == NULL` branches after
  it are not reachable and are left out.
* `_ml_pipeline_get_gst_element` / `gst_object_unref` (a balanced reference on the
  GstElement) and logging are not recorded.
-/

namespace NNStreamer

/-- Opaque native pointer; `0` is `NULL`. -/
abbrev gpointer := Nat

/-- JNI object reference; `0` is `NULL`. -/
abbrev jobject := Nat

/-- Pointer to an `ANativeWindow`; `0` is `NULL`. -/
abbrev ANativeWindow := Nat

/-- Status code of a successful engine call. -/
def ML_ERROR_NONE : Int := 0

/-- The element kinds used by the pipeline bridge (`nns_element_type_e`). -/
inductive nns_element_type_e
  | NNS_ELEMENT_TYPE_SRC
  | NNS_ELEMENT_TYPE_SINK
  | NNS_ELEMENT_TYPE_VALVE
  | NNS_ELEMENT_TYPE_SWITCH
  | NNS_ELEMENT_TYPE_VIDEO_SINK
deriving DecidableEq, Repr

open nns_element_type_e

/-- One tensor of a descriptor: element type and shape (its length is the rank). -/
structure ml_tensor_info_s where
  type : Nat
  dimension : List Nat
deriving DecidableEq, Repr

/-- A tensors descriptor, by value: the list of its tensors (its length is the count). -/
abbrev ml_tensors_info_h := List ml_tensor_info_s

/-- Modelled from the spec: `ml_tensors_info_create_extended` is not part of the sources at
hand; a freshly created descriptor is the empty one (no tensors). -/
def ml_tensors_info_create_extended : ml_tensors_info_h := []

/-- Modelled from the spec: `ml_tensors_info_is_equal` is not part of the sources at hand;
the spec compares "using full structural equality (count of tensors, and per-tensor
type/shape/rank)". -/
def ml_tensors_info_is_equal (a b : ml_tensors_info_h) : Bool := decide (a = b)

/-- Argument of a foreign method invocation. -/
inductive jvalue
  | int (i : Int)
  | str (s : String)
  | obj (o : jobject)
deriving DecidableEq, Repr

/-- The calls that leave the translated functions. -/
inductive Call
  | ml_pipeline_src_get_handle (pipe : gpointer) (name : String)
  | ml_pipeline_switch_get_handle (pipe : gpointer) (name : String)
  | ml_pipeline_valve_get_handle (pipe : gpointer) (name : String)
  | ml_pipeline_sink_register (pipe : gpointer) (name : String)
  | ml_pipeline_element_get_handle (pipe : gpointer) (name : String)
  | ml_pipeline_src_release_handle (h : gpointer)
  | ml_pipeline_switch_release_handle (h : gpointer)
  | ml_pipeline_valve_release_handle (h : gpointer)
  | ml_pipeline_sink_unregister (h : gpointer)
  | ml_pipeline_element_release_handle (h : gpointer)
  | ml_pipeline_destroy (pipe : gpointer)
  | nns_convert_tensors_info (info : ml_tensors_info_h)
  | nns_convert_tensors_data (data : gpointer) (info_obj : jobject)
  | NewGlobalRef (o : jobject)
  | DeleteGlobalRef (o : jobject)
  | DeleteLocalRef (o : jobject)
  | NewStringUTF (s : String)
  | DeleteLocalRefString (s : String)
  | CallVoidMethod (thiz : jobject) (mid : Nat) (args : List jvalue)
  | ExceptionClear
  | ANativeWindow_fromSurface (w : ANativeWindow)
  | ANativeWindow_release (w : ANativeWindow)
  | gst_video_overlay_expose (h : gpointer)
  | gst_video_overlay_set_window_handle (h : gpointer) (w : ANativeWindow)
  | ml_pipeline_start (pipe : gpointer)
  | ml_pipeline_stop (pipe : gpointer)
  | ml_pipeline_flush (pipe : gpointer) (restart : Bool)
  | ml_pipeline_get_state (pipe : gpointer)
  | ml_pipeline_switch_get_pad_list (h : gpointer)
  | NewObjectArray (length : Nat)
  | SetObjectArrayElement (index : Nat) (s : String)
  | CallObjectMethod (thiz : jobject) (mid : Nat) (args : List jvalue)
  | nns_parse_tensors_data (o : jobject)
deriving DecidableEq, Repr

/-- Private data for the Pipeline class (`pipeline_priv_data_s`): the two method ids. -/
structure pipeline_priv_data_s where
  mid_state_cb : Nat
  mid_sink_cb : Nat
deriving DecidableEq, Repr

/-- Private data for a sink node (`pipeline_sink_priv_data_s`). -/
structure pipeline_sink_priv_data_s where
  out_info : ml_tensors_info_h
  out_info_obj : jobject
deriving DecidableEq, Repr

/-- Private data for a video sink (`pipeline_video_sink_priv_data_s`). -/
structure pipeline_video_sink_priv_data_s where
  window : ANativeWindow
  old_window : ANativeWindow
deriving DecidableEq, Repr

/-- The `priv_data` pointer of an element entry together with the destructor stored next to
it: `null`, a sink's private data (destructor `nns_pipeline_sink_priv_free`) or a video
sink's (destructor `nns_pipeline_video_sink_priv_free`). -/
inductive priv_data_t
  | null
  | sink (p : pipeline_sink_priv_data_s)
  | video_sink (p : pipeline_video_sink_priv_data_s)
deriving DecidableEq, Repr

/-- An element entry (`element_data_s`); the back pointer `pipe_info` is passed along
explicitly instead of being stored. -/
structure element_data_s where
  name : String
  type : nns_element_type_e
  handle : gpointer
  priv_data : priv_data_t
deriving DecidableEq, Repr

/-- The pipeline context (`pipeline_info_s`) of a Pipeline object: engine handle, the
foreign object it serves, private data and the table of element entries keyed by name. -/
structure pipeline_info_s where
  pipeline_handle : gpointer
  thiz : jobject
  priv_data : pipeline_priv_data_s
  element_handles : List (String × element_data_s)
deriving DecidableEq, Repr

/-- What the engine answers to a get-handle / register call: status and handle. -/
structure engine_reply where
  status : Int
  handle : gpointer
deriving DecidableEq, Repr

/-! ## Private-data destructors -/

/-- The macro `release_native_window (w)`: the release call issued for slot content `w`
(the caller clears the slot). -/
def release_native_window (w : ANativeWindow) : List Call :=
  if w ≠ 0 then [Call.ANativeWindow_release w] else []

/-- Release private data in video sink: the old window first, then the active one. -/
def nns_pipeline_video_sink_priv_free (priv : pipeline_video_sink_priv_data_s) : List Call :=
  release_native_window priv.old_window ++ release_native_window priv.window

/-- Release private data in sink node. -/
def nns_pipeline_sink_priv_free (priv : pipeline_sink_priv_data_s) : List Call :=
  if priv.out_info_obj ≠ 0 then [Call.DeleteGlobalRef priv.out_info_obj] else []

/-! ## Element registry helpers -/

/-- Modelled from the spec: `nns_get_element_data` is not part of the sources at hand. The
registry is "a per-pipeline-instance table keyed by element name" and "name lookup is
case-sensitive exact match": the entry stored under `name`, if any. -/
def nns_get_element_data (pipe_info : pipeline_info_s) (name : String) :
    Option element_data_s :=
  pipe_info.element_handles.lookup name

/-- Modelled from the spec: `nns_get_element_handle` is not part of the sources at hand. It
is given the name and the kind asked for; the handle of the entry stored under `name` when
that entry is of the kind asked for, `NULL` otherwise. -/
def nns_get_element_handle (pipe_info : pipeline_info_s) (name : String)
    (type : nns_element_type_e) : gpointer :=
  match nns_get_element_data pipe_info name with
  | some item => if item.type = type then item.handle else 0
  | none => 0

/-- Modelled from the spec: `nns_add_element_data` is not part of the sources at hand. The
table holds "at most one Element Entry ... per (context, name) pair" and "on failure no
entry is inserted": inserting under a name that is present is rejected and leaves the table
as it was, otherwise the entry is added under its name. -/
def nns_add_element_data (pipe_info : pipeline_info_s) (name : String)
    (item : element_data_s) : Bool × pipeline_info_s :=
  match nns_get_element_data pipe_info name with
  | some _ => (false, pipe_info)
  | none =>
    (true, { pipe_info with element_handles := pipe_info.element_handles ++ [(name, item)] })

/-- The release operation matching an element kind; a sink has no release-handle call, its
data callback is deregistered. -/
def release_call (type : nns_element_type_e) (h : gpointer) : Call :=
  match type with
  | NNS_ELEMENT_TYPE_SRC => Call.ml_pipeline_src_release_handle h
  | NNS_ELEMENT_TYPE_SINK => Call.ml_pipeline_sink_unregister h
  | NNS_ELEMENT_TYPE_VALVE => Call.ml_pipeline_valve_release_handle h
  | NNS_ELEMENT_TYPE_SWITCH => Call.ml_pipeline_switch_release_handle h
  | NNS_ELEMENT_TYPE_VIDEO_SINK => Call.ml_pipeline_element_release_handle h

/-- The destructor stored with an entry's private data, applied to it. -/
def priv_destroy (p : priv_data_t) : List Call :=
  match p with
  | priv_data_t.null => []
  | priv_data_t.sink s => nns_pipeline_sink_priv_free s
  | priv_data_t.video_sink v => nns_pipeline_video_sink_priv_free v

/-- Modelled from the spec: `nns_free_element_data` is not part of the sources at hand. The
spec has an entry destroyed by invoking the "entry's private-data destructor" and releasing
"its native handle through the matching release operation for its kind". -/
def nns_free_element_data (item : element_data_s) : List Call :=
  priv_destroy item.priv_data ++ [release_call item.type item.handle]

/-- Writing through the entry pointer `edata`: the entry stored under `name` becomes
`item`, every other entry stays. -/
def store_element_data (pipe_info : pipeline_info_s) (name : String)
    (item : element_data_s) : pipeline_info_s :=
  { pipe_info with
    element_handles :=
      pipe_info.element_handles.map (fun e => if e.1 = name then (e.1, item) else e) }

/-! ## Resolving element handles -/

/-- Get sink handle. -/
def nns_get_sink_handle (pipe_info : pipeline_info_s) (element_name : String)
    (eng : engine_reply) : gpointer × pipeline_info_s × List Call :=
  let etype := NNS_ELEMENT_TYPE_SINK
  let pipe := pipe_info.pipeline_handle
  let handle := nns_get_element_handle pipe_info element_name etype
  if handle = 0 then
    if eng.status ≠ ML_ERROR_NONE then
      (0, pipe_info, [Call.ml_pipeline_sink_register pipe element_name])
    else
      let item : element_data_s :=
        { name := element_name, type := etype, handle := eng.handle,
          priv_data := priv_data_t.null }
      match nns_add_element_data pipe_info element_name item with
      | (true, pipe_info1) =>
        (eng.handle, pipe_info1, [Call.ml_pipeline_sink_register pipe element_name])
      | (false, pipe_info1) =>
        (0, pipe_info1,
          Call.ml_pipeline_sink_register pipe element_name :: nns_free_element_data item)
  else (handle, pipe_info, [])

/-- Get src handle. -/
def nns_get_src_handle (pipe_info : pipeline_info_s) (element_name : String)
    (eng : engine_reply) : gpointer × pipeline_info_s × List Call :=
  let etype := NNS_ELEMENT_TYPE_SRC
  let pipe := pipe_info.pipeline_handle
  let handle := nns_get_element_handle pipe_info element_name etype
  if handle = 0 then
    if eng.status ≠ ML_ERROR_NONE then
      (0, pipe_info, [Call.ml_pipeline_src_get_handle pipe element_name])
    else
      let item : element_data_s :=
        { name := element_name, type := etype, handle := eng.handle,
          priv_data := priv_data_t.null }
      match nns_add_element_data pipe_info element_name item with
      | (true, pipe_info1) =>
        (eng.handle, pipe_info1, [Call.ml_pipeline_src_get_handle pipe element_name])
      | (false, pipe_info1) =>
        (0, pipe_info1,
          Call.ml_pipeline_src_get_handle pipe element_name :: nns_free_element_data item)
  else (handle, pipe_info, [])

/-- Get switch handle. -/
def nns_get_switch_handle (pipe_info : pipeline_info_s) (element_name : String)
    (eng : engine_reply) : gpointer × pipeline_info_s × List Call :=
  let etype := NNS_ELEMENT_TYPE_SWITCH
  let pipe := pipe_info.pipeline_handle
  let handle := nns_get_element_handle pipe_info element_name etype
  if handle = 0 then
    if eng.status ≠ ML_ERROR_NONE then
      (0, pipe_info, [Call.ml_pipeline_switch_get_handle pipe element_name])
    else
      let item : element_data_s :=
        { name := element_name, type := etype, handle := eng.handle,
          priv_data := priv_data_t.null }
      match nns_add_element_data pipe_info element_name item with
      | (true, pipe_info1) =>
        (eng.handle, pipe_info1, [Call.ml_pipeline_switch_get_handle pipe element_name])
      | (false, pipe_info1) =>
        (0, pipe_info1,
          Call.ml_pipeline_switch_get_handle pipe element_name :: nns_free_element_data item)
  else (handle, pipe_info, [])

/-- Get valve handle. -/
def nns_get_valve_handle (pipe_info : pipeline_info_s) (element_name : String)
    (eng : engine_reply) : gpointer × pipeline_info_s × List Call :=
  let etype := NNS_ELEMENT_TYPE_VALVE
  let pipe := pipe_info.pipeline_handle
  let handle := nns_get_element_handle pipe_info element_name etype
  if handle = 0 then
    if eng.status ≠ ML_ERROR_NONE then
      (0, pipe_info, [Call.ml_pipeline_valve_get_handle pipe element_name])
    else
      let item : element_data_s :=
        { name := element_name, type := etype, handle := eng.handle,
          priv_data := priv_data_t.null }
      match nns_add_element_data pipe_info element_name item with
      | (true, pipe_info1) =>
        (eng.handle, pipe_info1, [Call.ml_pipeline_valve_get_handle pipe element_name])
      | (false, pipe_info1) =>
        (0, pipe_info1,
          Call.ml_pipeline_valve_get_handle pipe element_name :: nns_free_element_data item)
  else (handle, pipe_info, [])

/-- Get video sink element data in the pipeline; `is_video_sink` is what
`GST_IS_VIDEO_OVERLAY` answers for the element behind the handle. -/
def nns_get_video_sink_data (pipe_info : pipeline_info_s) (element_name : String)
    (eng : engine_reply) ( is_video_sink : Bool) :
    Option element_data_s × pipeline_info_s × List Call :=
  let etype := NNS_ELEMENT_TYPE_VIDEO_SINK
  let pipe := pipe_info.pipeline_handle
  match nns_get_element_data pipe_info element_name with
  | some item => (some item, pipe_info, [])
  | none =>
    if eng.status ≠ ML_ERROR_NONE then
      (none, pipe_info, [Call.ml_pipeline_element_get_handle pipe element_name])
    else if ! is_video_sink then
      (none, pipe_info,
        [Call.ml_pipeline_element_get_handle pipe element_name,
         Call.ml_pipeline_element_release_handle eng.handle])
    else
      let item : element_data_s :=
        { name := element_name, type := etype, handle := eng.handle,
          priv_data := priv_data_t.null }
      match nns_add_element_data pipe_info element_name item with
      | (true, pipe_info1) =>
        (some item, pipe_info1, [Call.ml_pipeline_element_get_handle pipe element_name])
      | (false, pipe_info1) =>
        (none, pipe_info1,
          Call.ml_pipeline_element_get_handle pipe element_name :: nns_free_element_data item)

/-- Resolve of the four handle kinds, by kind (`nns_get_video_sink_data` returns an entry,
not a handle, and is kept apart); for `NNS_ELEMENT_TYPE_VIDEO_SINK` there is no such
function and nothing happens. -/
def resolve (type : nns_element_type_e) (pipe_info : pipeline_info_s)
    (element_name : String) (eng : engine_reply) : gpointer × pipeline_info_s × List Call :=
  match type with
  | NNS_ELEMENT_TYPE_SRC => nns_get_src_handle pipe_info element_name eng
  | NNS_ELEMENT_TYPE_SINK => nns_get_sink_handle pipe_info element_name eng
  | NNS_ELEMENT_TYPE_VALVE => nns_get_valve_handle pipe_info element_name eng
  | NNS_ELEMENT_TYPE_SWITCH => nns_get_switch_handle pipe_info element_name eng
  | NNS_ELEMENT_TYPE_VIDEO_SINK => (0, pipe_info, [])

/-- Whether a call is an engine-level acquisition (get-handle or sink register). -/
def is_acquisition (c : Call) : Bool :=
  match c with
  | Call.ml_pipeline_src_get_handle _ _ => true
  | Call.ml_pipeline_switch_get_handle _ _ => true
  | Call.ml_pipeline_valve_get_handle _ _ => true
  | Call.ml_pipeline_sink_register _ _ => true
  | Call.ml_pipeline_element_get_handle _ _ => true
  | _ => false

/-- Number of entries the registry holds under `name`. -/
def entry_count (pipe_info : pipeline_info_s) (name : String) : Nat :=
  (pipe_info.element_handles.filter (fun e => e.1 = name)).length

/-- The registry invariant: no two entries share a name. -/
def registry_wf (pipe_info : pipeline_info_s) : Prop :=
  (pipe_info.element_handles.map Prod.fst).Nodup

/-- The acquisition call the resolve function of a handle kind issues. -/
def acquire_call (type : nns_element_type_e) (pipe : gpointer) (name : String) : Call :=
  match type with
  | NNS_ELEMENT_TYPE_SRC => Call.ml_pipeline_src_get_handle pipe name
  | NNS_ELEMENT_TYPE_SINK => Call.ml_pipeline_sink_register pipe name
  | NNS_ELEMENT_TYPE_VALVE => Call.ml_pipeline_valve_get_handle pipe name
  | NNS_ELEMENT_TYPE_SWITCH => Call.ml_pipeline_switch_get_handle pipe name
  | NNS_ELEMENT_TYPE_VIDEO_SINK => Call.ml_pipeline_element_get_handle pipe name

/-- Resolving a name as any of the five kinds: whether the resolve function of the kind
returns non-`NULL` (a handle, or the entry for a video sink), the context after the call and
the calls made. -/
def resolve_outcome (type : nns_element_type_e) (pipe_info : pipeline_info_s)
    (element_name : String) (eng : engine_reply) ( is_video_sink : Bool) :
    Bool × pipeline_info_s × List Call :=
  match type with
  | NNS_ELEMENT_TYPE_VIDEO_SINK =>
    let r := nns_get_video_sink_data pipe_info element_name eng is_video_sink
    (r.1.isSome, r.2.1, r.2.2)
  | _ =>
    let r := resolve type pipe_info element_name eng
    (decide (r.1 ≠ 0), r.2.1, r.2.2)

/-! ## Type-descriptor cache -/

/-- Lines 121-138 of `nns_pipeline_sink_priv_set_out_info`, on the sink's private data:
compare, convert, replace the cached descriptor and the cached global reference.
`conv` is what `nns_convert_tensors_info` yields if it is called (`none`: it fails). -/
def sink_priv_set_out_info (priv : pipeline_sink_priv_data_s) (out_info : ml_tensors_info_h)
    (conv : Option jobject) : Bool × pipeline_sink_priv_data_s × List Call :=
  if ml_tensors_info_is_equal out_info priv.out_info then
    -- do nothing, tensors info is equal.
    (true, priv, [])
  else
    match conv with
    | none => (false, priv, [Call.nns_convert_tensors_info out_info])
    | some obj_info =>
      (true, { out_info := out_info, out_info_obj := obj_info },
        [Call.nns_convert_tensors_info out_info] ++
        (if priv.out_info_obj ≠ 0 then [Call.DeleteGlobalRef priv.out_info_obj] else []) ++
        [Call.NewGlobalRef obj_info, Call.DeleteLocalRef obj_info])

/-- Update output info in sink node data. The result is `none` when the entry carries the
private data of a video sink, which this function would read through the sink layout. -/
def nns_pipeline_sink_priv_set_out_info (item : element_data_s)
    (out_info : ml_tensors_info_h) (conv : Option jobject) :
    Option (Bool × element_data_s × List Call) :=
  match item.priv_data with
  | priv_data_t.video_sink _ => none
  | priv_data_t.null =>
    let priv : pipeline_sink_priv_data_s :=
      { out_info := ml_tensors_info_create_extended, out_info_obj := 0 }
    let r := sink_priv_set_out_info priv out_info conv
    some (r.1, { item with priv_data := priv_data_t.sink r.2.1 }, r.2.2)
  | priv_data_t.sink priv =>
    let r := sink_priv_set_out_info priv out_info conv
    some (r.1, { item with priv_data := priv_data_t.sink r.2.1 }, r.2.2)

/-- The descriptor an entry has cached: the empty one while no private data exists. -/
def cached_out_info (item : element_data_s) : ml_tensors_info_h :=
  match item.priv_data with
  | priv_data_t.sink priv => priv.out_info
  | _ => ml_tensors_info_create_extended

/-- The foreign descriptor reference an entry has cached (`NULL` while there is none). -/
def cached_out_info_obj (item : element_data_s) : jobject :=
  match item.priv_data with
  | priv_data_t.sink priv => priv.out_info_obj
  | _ => 0

/-- Private data for CustomFilter class (`customfilter_priv_data_s`). -/
structure customfilter_priv_data_s where
  mid_invoke : Nat
  in_info : ml_tensors_info_h
  out_info : ml_tensors_info_h
  in_info_obj : jobject
deriving DecidableEq, Repr

/-- Update input info in private data (custom filter); `conv` is what
`nns_convert_tensors_info` yields for `in_info` if it is called. -/
def nns_customfilter_priv_set_info (priv : customfilter_priv_data_s)
    (in_info out_info : ml_tensors_info_h) (conv : Option jobject) :
    Bool × customfilter_priv_data_s × List Call :=
  let step1 : Option (customfilter_priv_data_s × List Call) :=
    if ! ml_tensors_info_is_equal in_info priv.in_info then
      match conv with
      | none => none
      | some obj_info =>
        some ({ priv with in_info := in_info, in_info_obj := obj_info },
          [Call.nns_convert_tensors_info in_info] ++
          (if priv.in_info_obj ≠ 0 then [Call.DeleteGlobalRef priv.in_info_obj] else []) ++
          [Call.NewGlobalRef obj_info, Call.DeleteLocalRef obj_info])
    else some (priv, [])
  match step1 with
  | none => (false, priv, [Call.nns_convert_tensors_info in_info])
  | some (priv1, calls) =>
    if ! ml_tensors_info_is_equal out_info priv1.out_info then
      (true, { priv1 with out_info := out_info }, calls)
    else (true, priv1, calls)

/-- The calls of a list that are descriptor conversions. -/
def conversions (calls : List Call) : List Call :=
  calls.filter (fun c => match c with
    | Call.nns_convert_tensors_info _ => true
    | _ => false)

/-- Feeding a sequence of descriptors, each with the reply of the converter, to one sink
entry: for every call the entry before it, the descriptor, and the calls it made. -/
def sink_cache_run (item : element_data_s) :
    List (ml_tensors_info_h × Option jobject) →
      List (element_data_s × ml_tensors_info_h × List Call)
  | [] => []
  | (d, conv) :: rest =>
    match nns_pipeline_sink_priv_set_out_info item d conv with
    | none => []
    | some r => (item, d, r.2.2) :: sink_cache_run r.2.1 rest

/-! ## Callback bridge -/

/-- Pipeline state change callback. `env` tells whether `nns_get_jni_env` yields an
environment, `raises` whether the foreign method raises. -/
def nns_pipeline_state_cb (pipe_info : pipeline_info_s) (state : Int) (env raises : Bool) :
    List Call :=
  if ! env then []
  else
    [Call.CallVoidMethod pipe_info.thiz pipe_info.priv_data.mid_state_cb [jvalue.int state]]
      ++ (if raises then [Call.ExceptionClear] else [])

/-- One native delivery to a sink, with what the collaborators answer during it. -/
structure sink_delivery where
  data : gpointer
  info : ml_tensors_info_h
  env : Bool
  info_obj : Option jobject
  data_obj : Option jobject
  raises : Bool
deriving DecidableEq, Repr

/-- New data callback for sink node; `item` is the entry the token points to. The result
is `none` when the entry's private data is not a sink's. -/
def nns_sink_data_cb (pipe_info : pipeline_info_s) (item : element_data_s)
    (d : sink_delivery) : Option (element_data_s × List Call) :=
  if ! d.env then some (item, [])
  else
    -- cache output tensors info
    match nns_pipeline_sink_priv_set_out_info item d.info d.info_obj with
    | none => none
    | some (false, item1, calls) => some (item1, calls)
    | some (true, item1, calls) =>
      match item1.priv_data with
      | priv_data_t.sink priv_sink =>
        match d.data_obj with
        | some obj_data =>
          some (item1,
            calls ++
            [Call.nns_convert_tensors_data d.data priv_sink.out_info_obj,
             Call.NewStringUTF item1.name,
             Call.CallVoidMethod pipe_info.thiz pipe_info.priv_data.mid_sink_cb
               [jvalue.str item1.name, jvalue.obj obj_data]] ++
            (if d.raises then [Call.ExceptionClear] else []) ++
            [Call.DeleteLocalRefString item1.name, Call.DeleteLocalRef obj_data])
        | none =>
          some (item1, calls ++ [Call.nns_convert_tensors_data d.data priv_sink.out_info_obj])
      | _ => none

/-- A sequence of native deliveries to one sink entry, in order: the calls made. -/
def sink_deliveries (pipe_info : pipeline_info_s) (item : element_data_s) :
    List sink_delivery → Option (element_data_s × List Call)
  | [] => some (item, [])
  | d :: rest =>
    match nns_sink_data_cb pipe_info item d with
    | none => none
    | some (item1, calls) =>
      match sink_deliveries pipe_info item1 rest with
      | none => none
      | some (item2, calls2) => some (item2, calls ++ calls2)

/-- The foreign method invocations among a list of calls. -/
def foreign_callbacks (calls : List Call) : List Call :=
  calls.filter (fun c => match c with
    | Call.CallVoidMethod _ _ _ => true
    | _ => false)

/-- The foreign sink callback invocation for a data object: `newDataReceived` on the
context's instance object with the sink's name and the data object. -/
def sink_callback_call (pipe_info : pipeline_info_s) (name : String) (obj_data : jobject) :
    Call :=
  Call.CallVoidMethod pipe_info.thiz pipe_info.priv_data.mid_sink_cb
    [jvalue.str name, jvalue.obj obj_data]

/-- The foreign callbacks a sequence of deliveries is to produce, following the words of
the spec: a delivery reaches the callback, with the sink's name and its data object, when
its descriptor caching succeeds (the descriptor is the cached one, or its conversion
succeeds) and its buffer conversion succeeds; any other delivery is skipped; the cache
holds the descriptor of the last delivery whose caching succeeded. -/
def expected_sink_callbacks (pipe_info : pipeline_info_s) (name : String) :
    ml_tensors_info_h → List sink_delivery → List Call
  | _, [] => []
  | cached, d :: rest =>
    let caching_ok : Bool := decide (d.info = cached) || d.info_obj.isSome
    (match caching_ok, d.data_obj with
      | true, some obj_data => [sink_callback_call pipe_info name obj_data]
      | _, _ => []) ++
    expected_sink_callbacks pipe_info name (if caching_ok then d.info else cached) rest

/-! ## Pipeline context lifecycle -/

/-- Modelled from the spec: a pipeline context as a context handle designates it, with the
liveness the spec gives it ("is this context still live"); `live` is cleared when destroy
begins. The declaration of the context and `nns_destroy_pipe_info` are not part of the
sources at hand. -/
structure context_s where
  live : Bool
  info : pipeline_info_s
deriving DecidableEq, Repr

/-- The contexts by handle; handle `0` is `NULL`. -/
abbrev context_table := Nat → Option context_s

/-- Modelled from the spec: `nns_destroy_pipe_info` is not part of the sources at hand.
The spec has destroy "idempotent against a null/already-destroyed context"; on a live
context it "walks the Registry, releasing every element handle and its private data, then
releases the engine handle", and the table is cleared. -/
def nns_destroy_pipe_info (contexts : context_table) (handle : Nat) :
    context_table × List Call :=
  if handle = 0 then (contexts, [])
  else
    match contexts handle with
    | none => (contexts, [])
    | some ctx =>
      if ctx.live then
        (Function.update contexts handle
            (some { live := false, info := { ctx.info with element_handles := [] } }),
          (ctx.info.element_handles.map (fun e => nns_free_element_data e.2)).flatten ++
            [Call.ml_pipeline_destroy ctx.info.pipeline_handle])
      else (contexts, [])

/-- Native method `nativeDestroy`: the handle is cast to the context pointer and handed to
`nns_destroy_pipe_info` unchecked. -/
def nns_native_pipe_destroy (contexts : context_table) (handle : Nat) :
    context_table × List Call :=
  nns_destroy_pipe_info contexts handle

/-! ## Surface binder -/

/-- Lines 863-885 of `nns_native_pipe_initialize_surface`, on the video sink's private data:
redraw for the window already set, otherwise keep the outgoing window in `old_window` and
set the new one. `vsink` stands for the GstElement behind the entry's handle. -/
def video_sink_priv_set_window (priv : pipeline_video_sink_priv_data_s) (vsink : gpointer)
    (native_win : ANativeWindow) : pipeline_video_sink_priv_data_s × List Call :=
  let r : pipeline_video_sink_priv_data_s × Bool × List Call :=
    if priv.window ≠ 0 then
      if priv.window = native_win then
        (priv, false,
          Call.gst_video_overlay_expose vsink :: release_native_window native_win)
      else
        ({ window := 0, old_window := priv.window }, true,
          release_native_window priv.old_window)
    else (priv, true, [])
  -- set new native window
  if r.2.1 then
    ({ r.1 with window := native_win },
      r.2.2 ++ [Call.gst_video_overlay_set_window_handle vsink native_win])
  else (r.1, r.2.2)

/-- Native method `nativeInitializeSurface`; `native_win` is the window
`ANativeWindow_fromSurface` returns (with a reference acquired). The result is `none` when
the entry found under the name carries a sink's private data, which this function would
read through the video-sink layout. -/
def nns_native_pipe_initialize_surface (pipe_info : pipeline_info_s) (name : String)
    (eng : engine_reply) ( is_video_sink : Bool) (native_win : ANativeWindow) :
    Option (Bool × pipeline_info_s × List Call) :=
  match nns_get_video_sink_data pipe_info name eng is_video_sink with
  | (none, pipe_info1, calls) => some (false, pipe_info1, calls)
  | (some edata, pipe_info1, calls) =>
    match edata.priv_data with
    | priv_data_t.sink _ => none
    | priv_data_t.null =>
      let r := video_sink_priv_set_window { window := 0, old_window := 0 } edata.handle
        native_win
      some (true,
        store_element_data pipe_info1 name
          { edata with priv_data := priv_data_t.video_sink r.1 },
        calls ++ Call.ANativeWindow_fromSurface native_win :: r.2)
    | priv_data_t.video_sink priv =>
      let r := video_sink_priv_set_window priv edata.handle native_win
      some (true,
        store_element_data pipe_info1 name
          { edata with priv_data := priv_data_t.video_sink r.1 },
        calls ++ Call.ANativeWindow_fromSurface native_win :: r.2)

/-- Native method `nativeFinalizeSurface`. The result is `none` when the entry found under
the name carries a sink's private data. -/
def nns_native_pipe_finalize_surface (pipe_info : pipeline_info_s) (name : String)
    (eng : engine_reply) ( is_video_sink : Bool) :
    Option (Bool × pipeline_info_s × List Call) :=
  match nns_get_video_sink_data pipe_info name eng is_video_sink with
  | (none, pipe_info1, calls) => some (false, pipe_info1, calls)
  | (some edata, pipe_info1, calls) =>
    match edata.priv_data with
    | priv_data_t.sink _ => none
    | priv_data_t.null =>
      some (true, pipe_info1,
        calls ++ [Call.gst_video_overlay_set_window_handle edata.handle 0])
    | priv_data_t.video_sink priv =>
      some (true,
        store_element_data pipe_info1 name
          { edata with
            priv_data := priv_data_t.video_sink
              { window := 0, old_window := priv.window } },
        calls ++ Call.gst_video_overlay_set_window_handle edata.handle 0 ::
          release_native_window priv.old_window)

/-! ## Control operations and sink-callback removal -/

/-- A `jboolean` argument as the caller passes it (a byte). -/
abbrev jboolean := Nat

/-- The `jboolean` value for true. -/
def JNI_TRUE : jboolean := 1

/-- The state code for an unknown pipeline state (`ML_PIPELINE_STATE_UNKNOWN`); it is
declared in the engine's header, which is not part of the sources at hand, and no statement
depends on its value. -/
def ML_PIPELINE_STATE_UNKNOWN : Int := 0

/-- Native method `nativeStart`; `status` is what `ml_pipeline_start` reports. -/
def nns_native_pipe_start (pipe_info : pipeline_info_s) (status : Int) : Bool × List Call :=
  if status ≠ ML_ERROR_NONE then (false, [Call.ml_pipeline_start pipe_info.pipeline_handle])
  else (true, [Call.ml_pipeline_start pipe_info.pipeline_handle])

/-- Native method `nativeStop`; `status` is what `ml_pipeline_stop` reports. -/
def nns_native_pipe_stop (pipe_info : pipeline_info_s) (status : Int) : Bool × List Call :=
  if status ≠ ML_ERROR_NONE then (false, [Call.ml_pipeline_stop pipe_info.pipeline_handle])
  else (true, [Call.ml_pipeline_stop pipe_info.pipeline_handle])

/-- Native method `nativeFlush`; `status` is what `ml_pipeline_flush` reports. -/
def nns_native_pipe_flush (pipe_info : pipeline_info_s) (start : jboolean) (status : Int) :
    Bool × List Call :=
  if status ≠ ML_ERROR_NONE then
    (false, [Call.ml_pipeline_flush pipe_info.pipeline_handle (decide (start = JNI_TRUE))])
  else (true, [Call.ml_pipeline_flush pipe_info.pipeline_handle (decide (start = JNI_TRUE))])

/-- Native method `nativeGetState`; `status` and `state` are what `ml_pipeline_get_state`
reports. -/
def nns_native_pipe_get_state (pipe_info : pipeline_info_s) (status : Int) (state : Int) :
    Int × List Call :=
  if status ≠ ML_ERROR_NONE then
    (ML_PIPELINE_STATE_UNKNOWN, [Call.ml_pipeline_get_state pipe_info.pipeline_handle])
  else (state, [Call.ml_pipeline_get_state pipe_info.pipeline_handle])

/-- Modelled from the spec: `nns_remove_element_data` is not part of the sources at hand.
The spec's removeOne "removes and destroys a single entry": the entry stored under `name`
leaves the table and is destroyed (private-data destructor, then the deregistration of its
kind); it reports whether there was such an entry. -/
def nns_remove_element_data (pipe_info : pipeline_info_s) (name : String) :
    Bool × pipeline_info_s × List Call :=
  match nns_get_element_data pipe_info name with
  | none => (false, pipe_info, [])
  | some item =>
    (true,
      { pipe_info with
        element_handles := pipe_info.element_handles.filter (fun e => !decide (e.1 = name)) },
      nns_free_element_data item)

/-- Native method `nativeRemoveSinkCallback`. -/
def nns_native_pipe_remove_sink_cb (pipe_info : pipeline_info_s) (name : String) :
    Bool × pipeline_info_s × List Call :=
  -- get handle from table
  let sink := nns_get_element_handle pipe_info name NNS_ELEMENT_TYPE_SINK
  if sink ≠ 0 then
    let r := nns_remove_element_data pipe_info name
    (true, r.2.1, r.2.2)
  else (false, pipe_info, [])

/-- What the engine answers to `ml_pipeline_switch_get_pad_list`. -/
structure pad_list_reply where
  status : Int
  pad_list : List String
deriving DecidableEq, Repr

/-- The loop of `nns_native_pipe_get_switch_pads` from index `i` on: each pad name becomes
a foreign string that is stored at its index of the array. -/
def set_pad_elements (pad_list : List String) (total : Nat) (i : Nat)
    (acc : List (Option String) × List Call) : List (Option String) × List Call :=
  if _ : i < total then
    let pad := pad_list.getD i ""
    set_pad_elements pad_list total (i + 1)
      (acc.1.set i (some pad),
        acc.2 ++ [Call.NewStringUTF pad, Call.SetObjectArrayElement i pad,
          Call.DeleteLocalRefString pad])
  else acc
termination_by total - i

/-- Native method `nativeGetSwitchPads`. The result array is `none` for `NULL`; a new array
holds `total` null elements. `eng` and `pads` are the engine's replies, `array_ok` tells
whether `NewObjectArray` yields an array. -/
def nns_native_pipe_get_switch_pads (pipe_info : pipeline_info_s) (name : String)
    (eng : engine_reply) (pads : pad_list_reply) (array_ok : Bool) :
    Option (List (Option String)) × pipeline_info_s × List Call :=
  let r := nns_get_switch_handle pipe_info name eng
  let node := r.1
  if node = 0 then (none, r.2.1, r.2.2)
  else if pads.status ≠ ML_ERROR_NONE then
    (none, r.2.1, r.2.2 ++ [Call.ml_pipeline_switch_get_pad_list node])
  else
    let total := pads.pad_list.length
    -- set string array
    if total > 0 then
      if ! array_ok then
        (none, r.2.1,
          r.2.2 ++ [Call.ml_pipeline_switch_get_pad_list node, Call.NewObjectArray total])
      else
        let filled := set_pad_elements pads.pad_list total 0 (List.replicate total none, [])
        (some filled.1, r.2.1,
          r.2.2 ++ [Call.ml_pipeline_switch_get_pad_list node, Call.NewObjectArray total] ++
            filled.2)
    else (none, r.2.1, r.2.2 ++ [Call.ml_pipeline_switch_get_pad_list node])

/-! ## Custom filter invocation -/

/-- The context of a CustomFilter object as `nns_customfilter_invoke` uses it: the foreign
object it serves and its private data. -/
structure customfilter_info_s where
  thiz : jobject
  priv_data : customfilter_priv_data_s
deriving DecidableEq, Repr

/-- What the collaborators answer during one custom-filter invocation: whether
`nns_get_jni_env` yields an environment, the data object of the input conversion (`none`:
it fails), whether the foreign `invoke` raises, the object it returns (`0`: null), and
whether parsing that object into output data succeeds. -/
structure invoke_reply where
  env : Bool
  in_obj : Option jobject
  raises : Bool
  out_obj : jobject
  parse_ok : Bool
deriving DecidableEq, Repr

/-- The block after `done:` of `nns_customfilter_invoke`: the local references held are
deleted. -/
def invoke_done (obj_in_data obj_out_data : jobject) : List Call :=
  (if obj_in_data ≠ 0 then [Call.DeleteLocalRef obj_in_data] else []) ++
  (if obj_out_data ≠ 0 then [Call.DeleteLocalRef obj_out_data] else [])

/-- The mandatory callback for custom-filter execution: 0 if OK, 1 to drop the input
buffer, a negative value on error. `user_data` is `none` for `NULL`. -/
def nns_customfilter_invoke (user_data : Option customfilter_info_s) (inp : gpointer)
    (r : invoke_reply) : Int × List Call :=
  match user_data with
  | none => (-1, [])
  | some pipe_info =>
    if ! r.env then (-1, [])
    else
      let priv := pipe_info.priv_data
      -- convert to data object
      match r.in_obj with
      | none => (-1, [Call.nns_convert_tensors_data inp priv.in_info_obj])
      | some obj_in_data =>
        -- call invoke callback
        let calls :=
          [Call.nns_convert_tensors_data inp priv.in_info_obj,
           Call.CallObjectMethod pipe_info.thiz priv.mid_invoke [jvalue.obj obj_in_data]]
        if r.raises then
          (-1, calls ++ [Call.ExceptionClear] ++ invoke_done obj_in_data r.out_obj)
        else if r.out_obj = 0 then
          -- drop current buffer
          (1, calls ++ invoke_done obj_in_data r.out_obj)
        else if ! r.parse_ok then
          (-1, calls ++ [Call.nns_parse_tensors_data r.out_obj] ++
            invoke_done obj_in_data r.out_obj)
        else
          -- callback finished
          (0, calls ++ [Call.nns_parse_tensors_data r.out_obj] ++
            invoke_done obj_in_data r.out_obj)

/-! ## Window references of a video sink -/

/-- One surface call on a video-sink name, with what the collaborators answer during it:
initializeSurface (the window `ANativeWindow_fromSurface` yields) or finalizeSurface. -/
inductive surface_op
  | init (eng : engine_reply) (vs : Bool) (native_win : ANativeWindow)
  | fin (eng : engine_reply) (vs : Bool)
deriving DecidableEq, Repr

/-- A sequence of surface calls on one name, in order: the context after them and the calls
made. -/
def surface_run (pipe_info : pipeline_info_s) (name : String) :
    List surface_op → Option (pipeline_info_s × List Call)
  | [] => some (pipe_info, [])
  | op :: rest =>
    match (match op with
      | surface_op.init eng vs w => nns_native_pipe_initialize_surface pipe_info name eng vs w
      | surface_op.fin eng vs => nns_native_pipe_finalize_surface pipe_info name eng vs) with
    | none => none
    | some (_, pipe_info1, calls) =>
      match surface_run pipe_info1 name rest with
      | none => none
      | some (pipe_info2, calls2) => some (pipe_info2, calls ++ calls2)

/-- The window slots behind a `priv_data` pointer: both empty while there is no private
data. -/
def video_priv_of (p : priv_data_t) : pipeline_video_sink_priv_data_s :=
  match p with
  | priv_data_t.video_sink v => v
  | _ => { window := 0, old_window := 0 }

/-- Number of references to window `w` acquired by the calls (`ANativeWindow_fromSurface`
yielding `w`). -/
def acquired_of (w : ANativeWindow) (calls : List Call) : Nat :=
  (calls.filter (fun c => match c with
    | Call.ANativeWindow_fromSurface x => decide (x = w)
    | _ => false)).length

/-- Number of references to window `w` released by the calls. -/
def released_of (w : ANativeWindow) (calls : List Call) : Nat :=
  (calls.filter (fun c => match c with
    | Call.ANativeWindow_release x => decide (x = w)
    | _ => false)).length

/-- Number of slots of the private data that hold window `w`. -/
def held_of (w : ANativeWindow) (priv : pipeline_video_sink_priv_data_s) : Nat :=
  (if priv.window = w then 1 else 0) + (if priv.old_window = w then 1 else 0)

/-- Number of window references acquired by the calls (a `NULL` window is none). -/
def acquired (calls : List Call) : Nat :=
  (calls.filter (fun c => match c with
    | Call.ANativeWindow_fromSurface x => decide (x ≠ 0)
    | _ => false)).length

/-- Number of window references released by the calls. -/
def released (calls : List Call) : Nat :=
  (calls.filter (fun c => match c with
    | Call.ANativeWindow_release _ => true
    | _ => false)).length

/-- Number of non-empty window slots of the private data. -/
def held (priv : pipeline_video_sink_priv_data_s) : Nat :=
  (if priv.window ≠ 0 then 1 else 0) + (if priv.old_window ≠ 0 then 1 else 0)

/-! ## Service agent client (`ml-api-service-agent-client.c`) -/

/-- The error code for an invalid parameter (`ML_ERROR_INVALID_PARAMETER`); it is declared
in the API's common header, which is not part of the sources at hand, and no statement
depends on its value. -/
def ML_ERROR_INVALID_PARAMETER : Int := -22

/-- Structure for `ml_service_h`. -/
structure ml_service_s where
  id : Int
  service_name : String
deriving DecidableEq, Repr

/-- The remote calls made through the pipeline d-bus proxy. -/
inductive service_call
  | call_start_pipeline_sync (id : Int)
  | call_stop_pipeline_sync (id : Int)
  | call_destroy_pipeline_sync (id : Int)
  | call_get_state_sync (id : Int)
  | call_get_description_sync (id : Int)
deriving DecidableEq, Repr

/-- Start the pipeline of given `ml_service_h` (`none` is `NULL`). `feature_ret` is what
the feature probe of `check_feature_state` yields (`ML_ERROR_NONE` when the service feature
is enabled, otherwise the macro returns it); `out_result` is the result code the remote
call reports. -/
def ml_service_start_pipeline (feature_ret : Int) (h : Option ml_service_s)
    (_out_result : Int) : Int × List service_call :=
  if feature_ret ≠ ML_ERROR_NONE then (feature_ret, [])
  else
    match h with
    | none => (ML_ERROR_INVALID_PARAMETER, [])
    | some server => (ML_ERROR_NONE, [service_call.call_start_pipeline_sync server.id])

/-- Stop the pipeline of given `ml_service_h`. -/
def ml_service_stop_pipeline (feature_ret : Int) (h : Option ml_service_s)
    (_out_result : Int) : Int × List service_call :=
  if feature_ret ≠ ML_ERROR_NONE then (feature_ret, [])
  else
    match h with
    | none => (ML_ERROR_INVALID_PARAMETER, [])
    | some server => (ML_ERROR_NONE, [service_call.call_stop_pipeline_sync server.id])

/-- Destroy the pipeline of given `ml_service_h` (the handle is freed afterwards). -/
def ml_service_destroy_pipeline (feature_ret : Int) (h : Option ml_service_s)
    (_out_result : Int) : Int × List service_call :=
  if feature_ret ≠ ML_ERROR_NONE then (feature_ret, [])
  else
    match h with
    | none => (ML_ERROR_INVALID_PARAMETER, [])
    | some server => (ML_ERROR_NONE, [service_call.call_destroy_pipeline_sync server.id])

/-- Return state of given `ml_service_h`: the return value, the value stored through
`state` (if any) and the remote calls; `remote_state` is the state the remote call
reports. -/
def ml_service_getstate_pipeline (feature_ret : Int) (h : Option ml_service_s)
    (_out_result : Int) (remote_state : Int) : Int × Option Int × List service_call :=
  if feature_ret ≠ ML_ERROR_NONE then (feature_ret, none, [])
  else
    match h with
    | none => (ML_ERROR_INVALID_PARAMETER, none, [])
    | some server =>
      (ML_ERROR_NONE, some remote_state, [service_call.call_get_state_sync server.id])

/-- Return the pipeline description of given `ml_service_h`: the return value, the
description stored through `desc` (if any) and the remote calls. -/
def ml_service_getdesc_pipeline (feature_ret : Int) (h : Option ml_service_s)
    (_out_result : Int) (remote_desc : String) : Int × Option String × List service_call :=
  if feature_ret ≠ ML_ERROR_NONE then (feature_ret, none, [])
  else
    match h with
    | none => (ML_ERROR_INVALID_PARAMETER, none, [])
    | some server =>
      (ML_ERROR_NONE, some remote_desc, [service_call.call_get_description_sync server.id])

/-! ## Sample values -/

/-- A pipeline context with an empty registry. -/
def sample_pipe : pipeline_info_s :=
  { pipeline_handle := 100, thiz := 200,
    priv_data := { mid_state_cb := 11, mid_sink_cb := 12 }, element_handles := [] }

/-- A sink entry as `nns_get_sink_handle` creates it (no private data yet). -/
def sample_sink : element_data_s :=
  { name := "sink", type := NNS_ELEMENT_TYPE_SINK, handle := 7,
    priv_data := priv_data_t.null }

/-- A descriptor with one tensor of type 1 and shape 3x4. -/
def sample_info : ml_tensors_info_h := [{ type := 1, dimension := [3, 4] }]

/-- Another descriptor: one tensor of type 2 and shape 5. -/
def sample_info2 : ml_tensors_info_h := [{ type := 2, dimension := [5] }]

/-- Private data of a custom filter caching `sample_info` under the reference 31. -/
def sample_filter_priv : customfilter_priv_data_s :=
  { mid_invoke := 13, in_info := sample_info, out_info := sample_info2, in_info_obj := 31 }

/-- A sink entry whose cache holds `sample_info` under the global reference 21. -/
def sample_sink_cached : element_data_s :=
  { name := "sink", type := NNS_ELEMENT_TYPE_SINK, handle := 7,
    priv_data := priv_data_t.sink { out_info := sample_info, out_info_obj := 21 } }

/-- A pipeline context whose registry holds the video sink "vsink" bound to window 5. -/
def sample_video_pipe : pipeline_info_s :=
  { pipeline_handle := 100, thiz := 200,
    priv_data := { mid_state_cb := 11, mid_sink_cb := 12 },
    element_handles :=
      [("vsink",
        { name := "vsink", type := NNS_ELEMENT_TYPE_VIDEO_SINK, handle := 9,
          priv_data := priv_data_t.video_sink { window := 5, old_window := 0 } })] }

/-- The entry of `sample_video_pipe`. -/
def sample_video_sink : element_data_s :=
  { name := "vsink", type := NNS_ELEMENT_TYPE_VIDEO_SINK, handle := 9,
    priv_data := priv_data_t.video_sink { window := 5, old_window := 0 } }

/-- Three deliveries of `sample_info` to a sink with the runtime environment available; the
buffer conversion of the second one fails. -/
def sample_deliveries : List sink_delivery :=
  [{ data := 1, info := sample_info, env := true, info_obj := some 21, data_obj := some 41,
     raises := false },
   { data := 2, info := sample_info, env := true, info_obj := some 22, data_obj := none,
     raises := false },
   { data := 3, info := sample_info, env := true, info_obj := some 23, data_obj := some 43,
     raises := true }]

/-- One live context under handle 1, holding the video sink "vsink". -/
def sample_contexts : context_table :=
  fun h => if h = 1 then some { live := true, info := sample_video_pipe } else none

/-- A pipeline context whose registry holds the sink "sink" (handle 7, no private data yet)
and the source "src" (handle 8). -/
def sample_sink_pipe : pipeline_info_s :=
  { pipeline_handle := 100, thiz := 200,
    priv_data := { mid_state_cb := 11, mid_sink_cb := 12 },
    element_handles :=
      [("sink", sample_sink),
       ("src",
        { name := "src", type := NNS_ELEMENT_TYPE_SRC, handle := 8,
          priv_data := priv_data_t.null })] }

/-- A pipeline context whose registry holds the video sink "vsink" as
`nns_get_video_sink_data` creates it (no private data yet). -/
def sample_fresh_video_pipe : pipeline_info_s :=
  { pipeline_handle := 100, thiz := 200,
    priv_data := { mid_state_cb := 11, mid_sink_cb := 12 },
    element_handles :=
      [("vsink",
        { name := "vsink", type := NNS_ELEMENT_TYPE_VIDEO_SINK, handle := 9,
          priv_data := priv_data_t.null })] }

/-- Surface calls: window 5 twice, window 6, finalize, window 7. -/
def sample_surface_ops : List surface_op :=
  [surface_op.init { status := 0, handle := 0 } true 5,
   surface_op.init { status := 0, handle := 0 } true 5,
   surface_op.init { status := 0, handle := 0 } true 6,
   surface_op.fin { status := 0, handle := 0 } true,
   surface_op.init { status := 0, handle := 0 } true 7]

/-- A pipeline context whose registry holds the sink "sink" with a cached descriptor. -/
def sample_cached_sink_pipe : pipeline_info_s :=
  { pipeline_handle := 100, thiz := 200,
    priv_data := { mid_state_cb := 11, mid_sink_cb := 12 },
    element_handles := [("sink", sample_sink_cached)] }

/-! ## Facts about the registry table -/

theorem lookup_append_absent (l : List (String × element_data_s)) (n : String)
    (item : element_data_s) (h : l.lookup n = none) :
    (l ++ [(n, item)]).lookup n = some item := by
  induction l with
  | nil => simp [List.lookup]
  | cons e t ih =>
    obtain ⟨k, v⟩ := e
    by_cases hk : n = k
    · subst hk
      simp [List.lookup] at h
    · have hb : (n == k) = false := by simpa using hk
      simp only [List.cons_append, List.lookup, hb] at h ⊢
      exact ih h

theorem filter_of_lookup_none (l : List (String × element_data_s)) (n : String)
    (h : l.lookup n = none) : l.filter (fun e => e.1 = n) = [] := by
  induction l with
  | nil => rfl
  | cons e t ih =>
    obtain ⟨k, v⟩ := e
    by_cases hk : n = k
    · subst hk
      simp [List.lookup] at h
    · have hb : (n == k) = false := by simpa using hk
      simp only [List.lookup, hb] at h
      have hne : ¬ k = n := fun e => hk e.symm
      simp [List.filter, hne, ih h]

theorem filter_length_of_lookup_some (l : List (String × element_data_s)) (n : String)
    (item : element_data_s) (hnd : (l.map Prod.fst).Nodup) (h : l.lookup n = some item) :
    (l.filter (fun e => e.1 = n)).length = 1 := by
  induction l with
  | nil => simp [List.lookup] at h
  | cons e t ih =>
    obtain ⟨k, v⟩ := e
    simp only [List.map_cons, List.nodup_cons] at hnd
    by_cases hk : n = k
    · subst hk
      have hnone : t.lookup n = none := by
        cases hl : t.lookup n with
        | none => rfl
        | some w =>
          exfalso
          apply hnd.1
          clear ih hnd h
          induction t with
          | nil => simp [List.lookup] at hl
          | cons e2 t2 ih2 =>
            obtain ⟨k2, v2⟩ := e2
            by_cases hk2 : n = k2
            · subst hk2; simp
            · have hb2 : (n == k2) = false := by simpa using hk2
              simp only [List.lookup, hb2] at hl
              simp only [List.map_cons, List.mem_cons]
              exact Or.inr (ih2 hl)
      simp [List.filter, filter_of_lookup_none t n hnone]
    · have hb : (n == k) = false := by simpa using hk
      simp only [List.lookup, hb] at h
      have hne : ¬ k = n := fun e => hk e.symm
      simp [List.filter, hne, ih hnd.2 h]

theorem not_mem_keys_of_lookup_none (l : List (String × element_data_s)) (n : String)
    (h : l.lookup n = none) : n ∉ l.map Prod.fst := by
  induction l with
  | nil => simp
  | cons e t ih =>
    obtain ⟨k, v⟩ := e
    by_cases hk : n = k
    · subst hk
      simp [List.lookup] at h
    · have hb : (n == k) = false := by simpa using hk
      simp only [List.lookup, hb] at h
      simp only [List.map_cons, List.mem_cons, not_or]
      exact ⟨hk, ih h⟩

/-- The registry invariant is kept by an insertion, accepted or rejected. -/
theorem add_element_data_keeps_wf (pipe_info : pipeline_info_s) (name : String)
    (item : element_data_s) (hwf : registry_wf pipe_info) :
    registry_wf (nns_add_element_data pipe_info name item).2 := by
  unfold nns_add_element_data nns_get_element_data
  cases hl : pipe_info.element_handles.lookup name with
  | some old => exact hwf
  | none =>
    have hnot := not_mem_keys_of_lookup_none pipe_info.element_handles name hl
    unfold registry_wf at hwf ⊢
    simp only [List.map_append, List.map_cons, List.map_nil]
    rw [List.nodup_append]
    refine ⟨hwf, List.nodup_singleton _, ?_⟩
    intro a ha hb
    simp only [List.mem_singleton] at hb
    subst hb
    exact hnot ha

/-! ## Resolving a handle -/

/-- The four handle-resolving functions share one shape. -/
theorem resolve_eq (type : nns_element_type_e) (hk : type ≠ NNS_ELEMENT_TYPE_VIDEO_SINK)
    (pipe_info : pipeline_info_s) (name : String) (eng : engine_reply) :
    resolve type pipe_info name eng =
      if nns_get_element_handle pipe_info name type = 0 then
        if eng.status ≠ ML_ERROR_NONE then
          (0, pipe_info, [acquire_call type pipe_info.pipeline_handle name])
        else
          match nns_add_element_data pipe_info name
              { name := name, type := type, handle := eng.handle,
                priv_data := priv_data_t.null } with
          | (true, pipe_info1) =>
            (eng.handle, pipe_info1, [acquire_call type pipe_info.pipeline_handle name])
          | (false, pipe_info1) =>
            (0, pipe_info1,
              acquire_call type pipe_info.pipeline_handle name ::
                nns_free_element_data
                  { name := name, type := type, handle := eng.handle,
                    priv_data := priv_data_t.null })
      else (nns_get_element_handle pipe_info name type, pipe_info, []) := by
  cases type <;> first | rfl | exact absurd rfl hk

theorem get_element_handle_ne_zero (pipe_info : pipeline_info_s) (name : String)
    (type : nns_element_type_e) (h : nns_get_element_handle pipe_info name type ≠ 0) :
    ∃ item, pipe_info.element_handles.lookup name = some item := by
  unfold nns_get_element_handle nns_get_element_data at h
  cases hl : pipe_info.element_handles.lookup name with
  | none => rw [hl] at h; exact absurd rfl h
  | some item => exact ⟨item, rfl⟩

/-- C1. If a first resolve of a source, switch, valve or sink name succeeds, a second resolve
of the same name and kind (whatever the engine would answer) returns the same handle, makes
no call at all, leaves the registry as it is with exactly one entry under the name; the two
resolves together make at most one engine acquisition, and exactly one when the name was
not registered before the first. -/
theorem resolve_twice_same_handle (type : nns_element_type_e) (pipe_info : pipeline_info_s)
    (name : String) (eng1 eng2 : engine_reply)
    (hk : type ≠ NNS_ELEMENT_TYPE_VIDEO_SINK) (hwf : registry_wf pipe_info)
    (hok : (resolve type pipe_info name eng1).1 ≠ 0) :
    (resolve type (resolve type pipe_info name eng1).2.1 name eng2).1
        = (resolve type pipe_info name eng1).1 ∧
    (resolve type (resolve type pipe_info name eng1).2.1 name eng2).2.2 = [] ∧
    (resolve type (resolve type pipe_info name eng1).2.1 name eng2).2.1
        = (resolve type pipe_info name eng1).2.1 ∧
    entry_count (resolve type (resolve type pipe_info name eng1).2.1 name eng2).2.1 name = 1 ∧
    ((resolve type pipe_info name eng1).2.2 ++
      (resolve type (resolve type pipe_info name eng1).2.1 name eng2).2.2).countP
        is_acquisition ≤ 1 ∧
    (nns_get_element_data pipe_info name = none →
      ((resolve type pipe_info name eng1).2.2 ++
        (resolve type (resolve type pipe_info name eng1).2.1 name eng2).2.2).countP
          is_acquisition = 1) := by
  have hacq : ∀ p n, is_acquisition (acquire_call type p n) = true := by
    intro p n; cases type <;> rfl
  by_cases h0 : nns_get_element_handle pipe_info name type = 0
  · -- the name is not yet resolved to this kind: the engine is asked
    by_cases hs : eng1.status ≠ ML_ERROR_NONE
    · rw [resolve_eq type hk, if_pos h0, if_pos hs] at hok
      exact absurd rfl hok
    · cases hl : pipe_info.element_handles.lookup name with
      | some old =>
        rw [resolve_eq type hk, if_pos h0, if_neg hs] at hok
        simp only [nns_add_element_data, nns_get_element_data, hl] at hok
        exact absurd rfl hok
      | none =>
        have hr1 : resolve type pipe_info name eng1 =
            (eng1.handle,
              { pipe_info with
                element_handles := pipe_info.element_handles ++
                  [(name, { name := name, type := type, handle := eng1.handle,
                            priv_data := priv_data_t.null })] },
              [acquire_call type pipe_info.pipeline_handle name]) := by
          rw [resolve_eq type hk, if_pos h0, if_neg hs]
          simp only [nns_add_element_data, nns_get_element_data, hl]
        rw [hr1] at hok ⊢
        simp only at hok
        have hlook := lookup_append_absent pipe_info.element_handles name
          { name := name, type := type, handle := eng1.handle,
            priv_data := priv_data_t.null } hl
        have hh : nns_get_element_handle
            { pipe_info with
              element_handles := pipe_info.element_handles ++
                [(name, { name := name, type := type, handle := eng1.handle,
                          priv_data := priv_data_t.null })] } name type = eng1.handle := by
          simp only [nns_get_element_handle, nns_get_element_data, hlook, if_true]
        have hr2 := resolve_eq type hk
          { pipe_info with
            element_handles := pipe_info.element_handles ++
              [(name, { name := name, type := type, handle := eng1.handle,
                        priv_data := priv_data_t.null })] } name eng2
        rw [hh, if_neg hok] at hr2
        simp only
        rw [hr2]
        refine ⟨rfl, rfl, rfl, ?_, ?_, ?_⟩
        · simp [entry_count, List.filter_append,
            filter_of_lookup_none pipe_info.element_handles name hl]
        · simp [List.countP_cons, hacq]
        · intro _
          simp [List.countP_cons, hacq]
  · -- the name is already resolved to this kind: the cached handle is returned
    have hr1 : resolve type pipe_info name eng1 =
        (nns_get_element_handle pipe_info name type, pipe_info, []) := by
      rw [resolve_eq type hk, if_neg h0]
    have hr2 : resolve type pipe_info name eng2 =
        (nns_get_element_handle pipe_info name type, pipe_info, []) := by
      rw [resolve_eq type hk, if_neg h0]
    rw [hr1]
    simp only
    rw [hr2]
    obtain ⟨item, hitem⟩ := get_element_handle_ne_zero pipe_info name type h0
    refine ⟨rfl, rfl, rfl, ?_, ?_, ?_⟩
    · exact filter_length_of_lookup_some pipe_info.element_handles name item hwf hitem
    · simp
    · intro hnone
      simp [nns_get_element_data, hitem] at hnone

/-! ## The type-descriptor cache of a sink entry -/

theorem conversions_append (a b : List Call) :
    conversions (a ++ b) = conversions a ++ conversions b := by
  simp [conversions]

theorem sink_priv_conversions (priv : pipeline_sink_priv_data_s) (d : ml_tensors_info_h)
    (conv : Option jobject) :
    (conversions (sink_priv_set_out_info priv d conv).2.2).length
      = if d = priv.out_info then 0 else 1 := by
  unfold sink_priv_set_out_info ml_tensors_info_is_equal
  by_cases h : d = priv.out_info
  · simp [h, conversions]
  · cases conv with
    | none => simp [h, conversions]
    | some obj =>
      by_cases ho : priv.out_info_obj = 0 <;> simp [h, ho, conversions]

theorem sink_priv_same (priv : pipeline_sink_priv_data_s) (conv : Option jobject) :
    sink_priv_set_out_info priv priv.out_info conv = (true, priv, []) := by
  simp [sink_priv_set_out_info, ml_tensors_info_is_equal]

theorem sink_priv_converted (priv : pipeline_sink_priv_data_s) (d : ml_tensors_info_h)
    (obj : jobject) (h : d ≠ priv.out_info) :
    (sink_priv_set_out_info priv d (some obj)).2.1 = { out_info := d, out_info_obj := obj } := by
  simp [sink_priv_set_out_info, ml_tensors_info_is_equal, h]

/-- One cache update on an entry whose private data is absent or a sink's: it returns, the
entry then carries sink private data, and exactly the calls with a changed descriptor
convert. -/
theorem set_out_info_step (item : element_data_s) (d : ml_tensors_info_h)
    (conv : Option jobject) (hp : ∀ v, item.priv_data ≠ priv_data_t.video_sink v) :
    ∃ r, nns_pipeline_sink_priv_set_out_info item d conv = some r ∧
      (∃ p, r.2.1.priv_data = priv_data_t.sink p) ∧
      (conversions r.2.2).length = if d = cached_out_info item then 0 else 1 := by
  unfold nns_pipeline_sink_priv_set_out_info cached_out_info
  cases hpd : item.priv_data with
  | null => exact ⟨_, rfl, ⟨_, rfl⟩, sink_priv_conversions _ d conv⟩
  | sink priv => exact ⟨_, rfl, ⟨_, rfl⟩, sink_priv_conversions _ d conv⟩
  | video_sink v => exact absurd hpd (hp v)

theorem sink_cache_run_spec (ds : List (ml_tensors_info_h × Option jobject)) :
    ∀ item : element_data_s, (∀ v, item.priv_data ≠ priv_data_t.video_sink v) →
      (sink_cache_run item ds).map (fun s => s.2.1) = ds.map Prod.fst ∧
      ∀ s ∈ sink_cache_run item ds,
        (conversions s.2.2).length = if s.2.1 = cached_out_info s.1 then 0 else 1 := by
  induction ds with
  | nil => intro item _; simp [sink_cache_run]
  | cons e rest ih =>
    intro item hp
    obtain ⟨d, conv⟩ := e
    obtain ⟨r, hr, ⟨p, hsink⟩, hconv⟩ := set_out_info_step item d conv hp
    have hp1 : ∀ v, r.2.1.priv_data ≠ priv_data_t.video_sink v := by
      intro v hv; rw [hsink] at hv; cases hv
    obtain ⟨ih1, ih2⟩ := ih r.2.1 hp1
    simp only [sink_cache_run, hr, List.map_cons, ih1, List.mem_cons, true_and]
    intro s hs
    rcases hs with hs | hs
    · subst hs; exact hconv
    · exact ih2 s hs

theorem sink_cache_run_stable (rest : List (Option jobject)) (item : element_data_s)
    (p : pipeline_sink_priv_data_s) (hp : item.priv_data = priv_data_t.sink p) :
    ∀ s ∈ sink_cache_run item (rest.map (fun c => (p.out_info, c))), s.2.2 = [] := by
  induction rest with
  | nil => simp [sink_cache_run]
  | cons c rest ih =>
    have hitem : ({ item with priv_data := priv_data_t.sink p } : element_data_s) = item := by
      cases item; simp only at hp; subst hp; rfl
    simp only [List.map_cons, sink_cache_run, nns_pipeline_sink_priv_set_out_info, hp,
      sink_priv_same, hitem, List.mem_cons]
    intro s hs
    rcases hs with hs | hs
    · subst hs; rfl
    · exact ih s hs

/-- C2 (as amended). Fed to a freshly created sink entry, every sequence of descriptors is
processed call by call, and a call attempts a descriptor conversion exactly when its
descriptor differs from the one cached before the call (the empty descriptor at first);
calls repeating one descriptor that is not the empty one attempt exactly one conversion
when the first conversion succeeds. -/
theorem sink_cache_converts_iff_changed (item : element_data_s)
    (hfresh : item.priv_data = priv_data_t.null) :
    (∀ ds : List (ml_tensors_info_h × Option jobject),
      (sink_cache_run item ds).map (fun s => s.2.1) = ds.map Prod.fst ∧
      ∀ s ∈ sink_cache_run item ds,
        (conversions s.2.2).length = if s.2.1 = cached_out_info s.1 then 0 else 1) ∧
    (∀ (d : ml_tensors_info_h) (obj : jobject) (rest : List (Option jobject)),
      d ≠ ml_tensors_info_create_extended →
      (conversions
        ((sink_cache_run item ((d, some obj) :: rest.map (fun c => (d, c)))).map
          (fun s => s.2.2)).flatten).length = 1) := by
  constructor
  · intro ds
    apply sink_cache_run_spec
    intro v hv; rw [hfresh] at hv; cases hv
  · intro d obj rest hd
    have hne : d ≠ ({ out_info := ml_tensors_info_create_extended, out_info_obj := 0 } :
        pipeline_sink_priv_data_s).out_info := hd
    have hstable := sink_cache_run_stable rest
      { item with priv_data := priv_data_t.sink { out_info := d, out_info_obj := obj } }
      { out_info := d, out_info_obj := obj } rfl
    have hjoin : ((sink_cache_run
        { item with priv_data := priv_data_t.sink { out_info := d, out_info_obj := obj } }
        (rest.map (fun c => (d, c)))).map (fun s => s.2.2)).flatten = [] := by
      rw [List.flatten_eq_nil_iff]
      intro l hl
      obtain ⟨s, hs, rfl⟩ := List.mem_map.1 hl
      exact hstable s hs
    have h1 := sink_priv_conversions
      { out_info := ml_tensors_info_create_extended, out_info_obj := 0 } d (some obj)
    rw [if_neg hne] at h1
    simp only [sink_cache_run, nns_pipeline_sink_priv_set_out_info, hfresh,
      sink_priv_converted _ d obj hne, List.map_cons, List.flatten_cons, conversions_append,
      List.length_append, h1, hjoin]
    rfl

/-- Witness for C2: a descriptor converted at the first of three calls is not converted
again. -/
theorem sink_cache_converts_iff_changed_witness :
    sample_sink.priv_data = priv_data_t.null ∧
    (conversions
      ((sink_cache_run sample_sink
          [(sample_info, some 5), (sample_info, some 6), (sample_info, none)]).map
        (fun s => s.2.2)).flatten).length = 1 :=
  ⟨rfl, (sink_cache_converts_iff_changed sample_sink rfl).2 sample_info 5 [some 6, none]
    (by decide)⟩

/-- C2 fails as stated: two calls with the same descriptor whose conversion fails both
call the converter, so the count is 2 and not 1. -/
theorem sink_cache_same_descriptor_two_conversions :
    (conversions
      ((sink_cache_run sample_sink [(sample_info, none), (sample_info, none)]).map
        (fun s => s.2.2)).flatten).length = 2 ∧
    ¬ (conversions
      ((sink_cache_run sample_sink [(sample_info, none), (sample_info, none)]).map
        (fun s => s.2.2)).flatten).length = 1 := by
  decide

/-- Witness for C1: resolving the source "src" twice in an empty registry. -/
theorem resolve_twice_same_handle_witness :
    (resolve NNS_ELEMENT_TYPE_SRC sample_pipe "src" { status := 0, handle := 7 }).1 ≠ 0 ∧
    (resolve NNS_ELEMENT_TYPE_SRC
      (resolve NNS_ELEMENT_TYPE_SRC sample_pipe "src" { status := 0, handle := 7 }).2.1
      "src" { status := 0, handle := 9 }).1
        = (resolve NNS_ELEMENT_TYPE_SRC sample_pipe "src" { status := 0, handle := 7 }).1 :=
  ⟨by decide,
    (resolve_twice_same_handle NNS_ELEMENT_TYPE_SRC sample_pipe "src"
      { status := 0, handle := 7 } { status := 0, handle := 9 }
      (by decide) (by simp [registry_wf, sample_pipe]) (by decide)).1⟩

/-! ## A failed conversion -/

/-- C3. When the conversion of a changed descriptor fails, the cache update of a sink entry
and that of a custom filter report failure, the only call made is the failed conversion (no
reference is released or created), and the cached descriptor(s) and the cached foreign
reference are what they were; an entry that had private data is left as it was. -/
theorem conversion_failure_keeps_cache (item : element_data_s) (d : ml_tensors_info_h)
    (priv : customfilter_priv_data_s) (in_info out_info : ml_tensors_info_h)
    (hp : ∀ v, item.priv_data ≠ priv_data_t.video_sink v)
    (hd : d ≠ cached_out_info item) (hin : in_info ≠ priv.in_info) :
    (∃ item1, nns_pipeline_sink_priv_set_out_info item d none
        = some (false, item1, [Call.nns_convert_tensors_info d]) ∧
      cached_out_info item1 = cached_out_info item ∧
      cached_out_info_obj item1 = cached_out_info_obj item ∧
      item1.name = item.name ∧ item1.type = item.type ∧ item1.handle = item.handle ∧
      (item.priv_data ≠ priv_data_t.null → item1 = item)) ∧
    nns_customfilter_priv_set_info priv in_info out_info none
      = (false, priv, [Call.nns_convert_tensors_info in_info]) := by
  constructor
  · unfold cached_out_info at hd
    cases hpd : item.priv_data with
    | null =>
      rw [hpd] at hd
      simp only at hd
      refine ⟨⟨item.name, item.type, item.handle,
        priv_data_t.sink ⟨ml_tensors_info_create_extended, 0⟩⟩, ?_, ?_⟩
      · simp [nns_pipeline_sink_priv_set_out_info, hpd, sink_priv_set_out_info,
          ml_tensors_info_is_equal, hd]
      · simp [cached_out_info, cached_out_info_obj, hpd]
    | sink p =>
      rw [hpd] at hd
      simp only at hd
      have hitem : ({ item with priv_data := priv_data_t.sink p } : element_data_s) = item := by
        cases item; simp only at hpd; subst hpd; rfl
      refine ⟨item, ?_, rfl, rfl, rfl, rfl, rfl, fun _ => rfl⟩
      simp [nns_pipeline_sink_priv_set_out_info, hpd, sink_priv_set_out_info,
        ml_tensors_info_is_equal, hd, hitem]
    | video_sink v => exact absurd hpd (hp v)
  · simp [nns_customfilter_priv_set_info, ml_tensors_info_is_equal, hin]

/-- Witness for C3: a sink entry and a custom filter caching `sample_info` are offered
`sample_info2` while the converter fails. -/
theorem conversion_failure_keeps_cache_witness :
    sample_info2 ≠ cached_out_info sample_sink_cached ∧
    sample_info2 ≠ sample_filter_priv.in_info ∧
    nns_customfilter_priv_set_info sample_filter_priv sample_info2 sample_info none
      = (false, sample_filter_priv, [Call.nns_convert_tensors_info sample_info2]) :=
  ⟨by decide, by decide,
    (conversion_failure_keeps_cache sample_sink_cached sample_info2 sample_filter_priv
      sample_info2 sample_info (fun v h => by simp [sample_sink_cached] at h)
      (by decide) (by decide)).2⟩

/-! ## The surface binder -/

theorem lookup_store (l : List (String × element_data_s)) (n : String)
    (old item : element_data_s) (h : l.lookup n = some old) :
    (l.map (fun e => if e.1 = n then (e.1, item) else e)).lookup n = some item := by
  induction l with
  | nil => simp [List.lookup] at h
  | cons e t ih =>
    obtain ⟨k, v⟩ := e
    by_cases hk : n = k
    · subst hk
      have hmap : List.map (fun e => if e.1 = n then (e.1, item) else e) ((n, v) :: t)
          = (n, item) :: List.map (fun e => if e.1 = n then (e.1, item) else e) t := by
        simp
      rw [hmap]
      simp [List.lookup]
    · have hb : (n == k) = false := by simpa using hk
      have hne : ¬ k = n := fun e => hk e.symm
      simp only [List.lookup, hb] at h
      have hmap : List.map (fun e => if e.1 = n then (e.1, item) else e) ((k, v) :: t)
          = (k, v) :: List.map (fun e => if e.1 = n then (e.1, item) else e) t := by
        simp [hne]
      rw [hmap]
      simp only [List.lookup, hb]
      exact ih h

theorem get_after_store (pipe_info : pipeline_info_s) (name : String)
    (old item : element_data_s) (h : nns_get_element_data pipe_info name = some old) :
    nns_get_element_data (store_element_data pipe_info name item) name = some item :=
  lookup_store pipe_info.element_handles name old item h

theorem video_sink_data_found (pipe_info : pipeline_info_s) (name : String)
    (edata : element_data_s) (eng : engine_reply) (b : Bool)
    (h : nns_get_element_data pipe_info name = some edata) :
    nns_get_video_sink_data pipe_info name eng b = (some edata, pipe_info, []) := by
  simp [nns_get_video_sink_data, h]

/-- Initialize on an entry with video-sink private data. -/
theorem initialize_surface_bound (pipe_info : pipeline_info_s) (name : String)
    (edata : element_data_s) (priv : pipeline_video_sink_priv_data_s) (eng : engine_reply)
    (b : Bool) (w : ANativeWindow)
    (h : nns_get_element_data pipe_info name = some edata)
    (hp : edata.priv_data = priv_data_t.video_sink priv) :
    nns_native_pipe_initialize_surface pipe_info name eng b w =
      some (true,
        store_element_data pipe_info name
          { edata with
            priv_data := priv_data_t.video_sink
              (video_sink_priv_set_window priv edata.handle w).1 },
        Call.ANativeWindow_fromSurface w ::
          (video_sink_priv_set_window priv edata.handle w).2) := by
  simp [nns_native_pipe_initialize_surface, video_sink_data_found pipe_info name edata eng b h,
    hp]

/-- Finalize on an entry with video-sink private data. -/
theorem finalize_surface_bound (pipe_info : pipeline_info_s) (name : String)
    (edata : element_data_s) (priv : pipeline_video_sink_priv_data_s) (eng : engine_reply)
    (b : Bool)
    (h : nns_get_element_data pipe_info name = some edata)
    (hp : edata.priv_data = priv_data_t.video_sink priv) :
    nns_native_pipe_finalize_surface pipe_info name eng b =
      some (true,
        store_element_data pipe_info name
          { edata with
            priv_data := priv_data_t.video_sink
              { window := 0, old_window := priv.window } },
        Call.gst_video_overlay_set_window_handle edata.handle 0 ::
          release_native_window priv.old_window) := by
  simp [nns_native_pipe_finalize_surface, video_sink_data_found pipe_info name edata eng b h,
    hp]

/-- C4. On a video-sink entry whose active window is `a`, initializeSurface with the same
window `a` acquires the window, asks for one redraw, sets no window handle, releases the
reference it acquired, and leaves the entry (both window slots) as it was. -/
theorem initialize_same_window_redraws (pipe_info : pipeline_info_s) (name : String)
    (edata : element_data_s) (a old : ANativeWindow) (eng : engine_reply) (b : Bool)
    (h : nns_get_element_data pipe_info name = some edata)
    (hp : edata.priv_data = priv_data_t.video_sink { window := a, old_window := old })
    (ha : a ≠ 0) :
    ∃ pipe_info1,
      nns_native_pipe_initialize_surface pipe_info name eng b a =
        some (true, pipe_info1,
          [Call.ANativeWindow_fromSurface a, Call.gst_video_overlay_expose edata.handle,
           Call.ANativeWindow_release a]) ∧
      nns_get_element_data pipe_info1 name = some edata := by
  have hinit : video_sink_priv_set_window { window := a, old_window := old } edata.handle a
      = ({ window := a, old_window := old },
          [Call.gst_video_overlay_expose edata.handle, Call.ANativeWindow_release a]) := by
    simp [video_sink_priv_set_window, release_native_window, ha]
  have hitem : ({ edata with
      priv_data := priv_data_t.video_sink { window := a, old_window := old } } :
      element_data_s) = edata := by
    cases edata; simp only at hp; subst hp; rfl
  refine ⟨store_element_data pipe_info name edata, ?_, get_after_store pipe_info name _ _ h⟩
  rw [initialize_surface_bound pipe_info name edata _ eng b a h hp, hinit]
  simp only [hitem]

/-- Witness for C4: the window 5 is offered again to the video sink bound to it. -/
theorem initialize_same_window_redraws_witness :
    nns_get_element_data sample_video_pipe "vsink" = some sample_video_sink ∧
    ∃ pipe_info1,
      nns_native_pipe_initialize_surface sample_video_pipe "vsink"
          { status := 0, handle := 0 } true 5 =
        some (true, pipe_info1,
          [Call.ANativeWindow_fromSurface 5,
           Call.gst_video_overlay_expose sample_video_sink.handle,
           Call.ANativeWindow_release 5]) ∧
      nns_get_element_data pipe_info1 "vsink" = some sample_video_sink :=
  ⟨by decide,
    initialize_same_window_redraws sample_video_pipe "vsink" sample_video_sink 5 0
      { status := 0, handle := 0 } true (by decide) rfl (by decide)⟩

/-- C5 (as amended). On a video-sink entry whose active window is `a`, initializeSurface
with another window `b` releases only what the previous-window slot held before the call:
a release of `a` is issued during the call exactly when that slot held a second reference
to `a`. The reference of the active slot is not released: `b` becomes the active window and
`a` is held in the previous-window slot. From there `a` is released by a later
initializeSurface exactly when its window differs from `b`, by finalizeSurface, and by the
destruction of the entry's private data (`nns_pipeline_video_sink_priv_free`). -/
theorem initialize_other_window_keeps_old (pipe_info : pipeline_info_s) (name : String)
    (edata : element_data_s) (a old b : ANativeWindow) (eng : engine_reply) (vs : Bool)
    (h : nns_get_element_data pipe_info name = some edata)
    (hp : edata.priv_data = priv_data_t.video_sink { window := a, old_window := old })
    (ha : a ≠ 0) (hb : b ≠ 0) (hab : b ≠ a) :
    ∃ pipe_info1,
      nns_native_pipe_initialize_surface pipe_info name eng vs b =
        some (true, pipe_info1,
          Call.ANativeWindow_fromSurface b ::
            (release_native_window old ++
              [Call.gst_video_overlay_set_window_handle edata.handle b])) ∧
      (Call.ANativeWindow_release a ∈
          Call.ANativeWindow_fromSurface b ::
            (release_native_window old ++
              [Call.gst_video_overlay_set_window_handle edata.handle b]) ↔ old = a) ∧
      nns_get_element_data pipe_info1 name =
        some { edata with
          priv_data := priv_data_t.video_sink { window := b, old_window := a } } ∧
      (∀ (eng2 : engine_reply) (vs2 : Bool) (w : ANativeWindow), ∃ pipe_info2,
        nns_native_pipe_initialize_surface pipe_info1 name eng2 vs2 w =
          some (true, pipe_info2,
            if w = b then
              [Call.ANativeWindow_fromSurface b, Call.gst_video_overlay_expose edata.handle,
               Call.ANativeWindow_release b]
            else
              [Call.ANativeWindow_fromSurface w, Call.ANativeWindow_release a,
               Call.gst_video_overlay_set_window_handle edata.handle w])) ∧
      (∀ (eng2 : engine_reply) (vs2 : Bool), ∃ pipe_info2,
        nns_native_pipe_finalize_surface pipe_info1 name eng2 vs2 =
          some (true, pipe_info2,
            [Call.gst_video_overlay_set_window_handle edata.handle 0,
             Call.ANativeWindow_release a])) ∧
      nns_pipeline_video_sink_priv_free { window := b, old_window := a } =
        [Call.ANativeWindow_release a, Call.ANativeWindow_release b] := by
  have hne : ¬ a = b := fun e => hab e.symm
  have hinit : video_sink_priv_set_window { window := a, old_window := old } edata.handle b
      = ({ window := b, old_window := a },
          release_native_window old ++
            [Call.gst_video_overlay_set_window_handle edata.handle b]) := by
    simp [video_sink_priv_set_window, ha, hne]
  have hget := get_after_store pipe_info name edata
    { edata with priv_data := priv_data_t.video_sink { window := b, old_window := a } } h
  refine ⟨_, ?_, ?_, hget, ?_, ?_, ?_⟩
  · rw [initialize_surface_bound pipe_info name edata _ eng vs b h hp, hinit]
  · by_cases ho : old = 0
    · have ha0 : ¬ 0 = a := fun e => ha e.symm
      simp [release_native_window, ho, ha0]
    · simp [release_native_window, ho, eq_comm]
  · intro eng2 vs2 w
    have hstep := initialize_surface_bound
      (store_element_data pipe_info name
        { edata with priv_data := priv_data_t.video_sink { window := b, old_window := a } })
      name
      { edata with priv_data := priv_data_t.video_sink { window := b, old_window := a } }
      { window := b, old_window := a } eng2 vs2 w hget rfl
    by_cases hw : w = b
    · subst hw
      have hcalls : video_sink_priv_set_window { window := w, old_window := a } edata.handle w
          = ({ window := w, old_window := a },
              [Call.gst_video_overlay_expose edata.handle, Call.ANativeWindow_release w]) := by
        simp [video_sink_priv_set_window, release_native_window, hb]
      simp only [hcalls] at hstep
      exact ⟨_, by rw [hstep, if_pos rfl]⟩
    · have hw2 : ¬ b = w := fun e => hw e.symm
      have hcalls : video_sink_priv_set_window { window := b, old_window := a } edata.handle w
          = ({ window := w, old_window := b },
              [Call.ANativeWindow_release a,
               Call.gst_video_overlay_set_window_handle edata.handle w]) := by
        simp [video_sink_priv_set_window, release_native_window, hb, ha, hw2]
      simp only [hcalls] at hstep
      exact ⟨_, by rw [hstep, if_neg hw]⟩
  · intro eng2 vs2
    have hstep := finalize_surface_bound
      (store_element_data pipe_info name
        { edata with priv_data := priv_data_t.video_sink { window := b, old_window := a } })
      name
      { edata with priv_data := priv_data_t.video_sink { window := b, old_window := a } }
      { window := b, old_window := a } eng2 vs2 hget rfl
    have hrel : release_native_window a = [Call.ANativeWindow_release a] := by
      simp [release_native_window, ha]
    simp only [hrel] at hstep
    exact ⟨_, hstep⟩
  · simp [nns_pipeline_video_sink_priv_free, release_native_window, ha, hb]

/-- Witness for C5 (as amended): the video sink bound to window 5 is given window 6. -/
theorem initialize_other_window_keeps_old_witness :
    nns_get_element_data sample_video_pipe "vsink" = some sample_video_sink ∧
    (6 : ANativeWindow) ≠ 5 ∧
    ∃ pipe_info1,
      nns_native_pipe_initialize_surface sample_video_pipe "vsink"
          { status := 0, handle := 0 } true 6 =
        some (true, pipe_info1,
          Call.ANativeWindow_fromSurface 6 ::
            (release_native_window 0 ++
              [Call.gst_video_overlay_set_window_handle sample_video_sink.handle 6])) ∧
      nns_get_element_data pipe_info1 "vsink" =
        some { sample_video_sink with
          priv_data := priv_data_t.video_sink { window := 6, old_window := 5 } } := by
  obtain ⟨p1, h1, _, h3, _⟩ :=
    initialize_other_window_keeps_old sample_video_pipe "vsink" sample_video_sink 5 0 6
      { status := 0, handle := 0 } true (by decide) rfl (by decide) (by decide) (by decide)
  exact ⟨by decide, by decide, p1, h1, h3⟩

/-- C5 fails as stated: after initializeSurface with window 5, finalizeSurface and
initializeSurface with window 5 again, the fresh video sink "vsink" has 5 as its active
window (and a second reference to 5 in the previous slot); initializeSurface with the
different window 6 then issues `ANativeWindow_release 5` during that call. -/
theorem initialize_other_window_releases_second_reference :
    (surface_run sample_fresh_video_pipe "vsink"
        [surface_op.init { status := 0, handle := 0 } true 5,
         surface_op.fin { status := 0, handle := 0 } true,
         surface_op.init { status := 0, handle := 0 } true 5]).map
      (fun r => nns_get_element_data r.1 "vsink")
      = some (some
          { name := "vsink", type := NNS_ELEMENT_TYPE_VIDEO_SINK, handle := 9,
            priv_data := priv_data_t.video_sink { window := 5, old_window := 5 } }) ∧
    ((surface_run sample_fresh_video_pipe "vsink"
        [surface_op.init { status := 0, handle := 0 } true 5,
         surface_op.fin { status := 0, handle := 0 } true,
         surface_op.init { status := 0, handle := 0 } true 5]).bind
      (fun r => nns_native_pipe_initialize_surface r.1 "vsink"
        { status := 0, handle := 0 } true 6)).map (fun r => r.2.2)
      = some [Call.ANativeWindow_fromSurface 6, Call.ANativeWindow_release 5,
              Call.gst_video_overlay_set_window_handle 9 6] := by
  decide

/-- C6 (as amended). On a video-sink entry holding windows, finalizeSurface clears the
window handle on the native element, releases the window of the previous-window slot (if
any) and moves the active window into that slot without releasing it: the active slot is
then empty and the previous slot holds the window that was active. A second finalizeSurface
releases that window and leaves both slots empty. -/
theorem finalize_surface_shifts_window (pipe_info : pipeline_info_s) (name : String)
    (edata : element_data_s) (w old : ANativeWindow) (eng : engine_reply) (vs : Bool)
    (h : nns_get_element_data pipe_info name = some edata)
    (hp : edata.priv_data = priv_data_t.video_sink { window := w, old_window := old }) :
    ∃ pipe_info1,
      nns_native_pipe_finalize_surface pipe_info name eng vs =
        some (true, pipe_info1,
          Call.gst_video_overlay_set_window_handle edata.handle 0 ::
            release_native_window old) ∧
      nns_get_element_data pipe_info1 name =
        some { edata with
          priv_data := priv_data_t.video_sink { window := 0, old_window := w } } ∧
      (∀ (eng2 : engine_reply) (vs2 : Bool), ∃ pipe_info2,
        nns_native_pipe_finalize_surface pipe_info1 name eng2 vs2 =
          some (true, pipe_info2,
            Call.gst_video_overlay_set_window_handle edata.handle 0 ::
              release_native_window w) ∧
        nns_get_element_data pipe_info2 name =
          some { edata with
            priv_data := priv_data_t.video_sink { window := 0, old_window := 0 } }) := by
  have hget := get_after_store pipe_info name edata
    { edata with priv_data := priv_data_t.video_sink { window := 0, old_window := w } } h
  refine ⟨_, finalize_surface_bound pipe_info name edata _ eng vs h hp, hget, ?_⟩
  intro eng2 vs2
  have hget2 := get_after_store _ name _
    { edata with priv_data := priv_data_t.video_sink { window := 0, old_window := 0 } } hget
  exact ⟨_, finalize_surface_bound
      (store_element_data pipe_info name
        { edata with priv_data := priv_data_t.video_sink { window := 0, old_window := w } })
      name
      { edata with priv_data := priv_data_t.video_sink { window := 0, old_window := w } }
      { window := 0, old_window := w } eng2 vs2 hget rfl,
    hget2⟩

/-- Witness for C6 (as amended): finalize on the video sink bound to window 5. -/
theorem finalize_surface_shifts_window_witness :
    nns_get_element_data sample_video_pipe "vsink" = some sample_video_sink ∧
    ∃ pipe_info1,
      nns_native_pipe_finalize_surface sample_video_pipe "vsink"
          { status := 0, handle := 0 } true =
        some (true, pipe_info1,
          Call.gst_video_overlay_set_window_handle sample_video_sink.handle 0 ::
            release_native_window 0) ∧
      nns_get_element_data pipe_info1 "vsink" =
        some { sample_video_sink with
          priv_data := priv_data_t.video_sink { window := 0, old_window := 5 } } := by
  obtain ⟨p1, h1, h2, _⟩ :=
    finalize_surface_shifts_window sample_video_pipe "vsink" sample_video_sink 5 0
      { status := 0, handle := 0 } true (by decide) rfl
  exact ⟨by decide, p1, h1, h2⟩

/-- C6 fails as stated: finalizeSurface on the video sink bound to window 5 (state Bound)
issues no release at all and leaves window 5 in the previous-window slot. -/
theorem finalize_surface_keeps_active_window :
    nns_native_pipe_finalize_surface sample_video_pipe "vsink"
        { status := 0, handle := 0 } true =
      some (true,
        { sample_video_pipe with
          element_handles :=
            [("vsink",
              { sample_video_sink with
                priv_data := priv_data_t.video_sink { window := 0, old_window := 5 } })] },
        [Call.gst_video_overlay_set_window_handle 9 0]) := by
  decide

/-! ## Sink deliveries -/

theorem foreign_callbacks_append (a b : List Call) :
    foreign_callbacks (a ++ b) = foreign_callbacks a ++ foreign_callbacks b := by
  simp [foreign_callbacks]

theorem sink_priv_foreign_callbacks (priv : pipeline_sink_priv_data_s)
    (d : ml_tensors_info_h) (conv : Option jobject) :
    foreign_callbacks (sink_priv_set_out_info priv d conv).2.2 = [] := by
  unfold sink_priv_set_out_info
  by_cases h : ml_tensors_info_is_equal d priv.out_info = true
  · simp [h, foreign_callbacks]
  · cases conv with
    | none => simp [h, foreign_callbacks]
    | some obj => by_cases ho : priv.out_info_obj = 0 <;> simp [h, ho, foreign_callbacks]

theorem sink_priv_result (priv : pipeline_sink_priv_data_s) (d : ml_tensors_info_h)
    (conv : Option jobject) :
    (sink_priv_set_out_info priv d conv).1 = (decide (d = priv.out_info) || conv.isSome) ∧
    (sink_priv_set_out_info priv d conv).2.1.out_info =
      (if (decide (d = priv.out_info) || conv.isSome) = true then d else priv.out_info) := by
  unfold sink_priv_set_out_info ml_tensors_info_is_equal
  by_cases h : d = priv.out_info
  · simp [h]
  · cases conv <;> simp [h]

/-- One delivery with the runtime environment available, on an entry whose private data is
absent or a sink's. -/
theorem sink_data_cb_step (pipe_info : pipeline_info_s) (item : element_data_s)
    (d : sink_delivery) (henv : d.env = true)
    (hp : ∀ v, item.priv_data ≠ priv_data_t.video_sink v) :
    ∃ item1 calls, nns_sink_data_cb pipe_info item d = some (item1, calls) ∧
      item1.name = item.name ∧ (∃ p, item1.priv_data = priv_data_t.sink p) ∧
      cached_out_info item1 =
        (if (decide (d.info = cached_out_info item) || d.info_obj.isSome) = true
          then d.info else cached_out_info item) ∧
      foreign_callbacks calls =
        (match (decide (d.info = cached_out_info item) || d.info_obj.isSome), d.data_obj with
          | true, some obj_data => [sink_callback_call pipe_info item.name obj_data]
          | _, _ => []) := by
  have main : ∀ (priv priv1 : pipeline_sink_priv_data_s) (ok : Bool) (c1 : List Call),
      nns_pipeline_sink_priv_set_out_info item d.info d.info_obj =
        some (ok, ⟨item.name, item.type, item.handle, priv_data_t.sink priv1⟩, c1) →
      ok = (decide (d.info = priv.out_info) || d.info_obj.isSome) →
      priv1.out_info =
        (if (decide (d.info = priv.out_info) || d.info_obj.isSome) = true
          then d.info else priv.out_info) →
      foreign_callbacks c1 = [] →
      cached_out_info item = priv.out_info →
      ∃ item1 calls, nns_sink_data_cb pipe_info item d = some (item1, calls) ∧
        item1.name = item.name ∧ (∃ p, item1.priv_data = priv_data_t.sink p) ∧
        cached_out_info item1 =
          (if (decide (d.info = cached_out_info item) || d.info_obj.isSome) = true
            then d.info else cached_out_info item) ∧
        foreign_callbacks calls =
          (match (decide (d.info = cached_out_info item) || d.info_obj.isSome), d.data_obj with
            | true, some obj_data => [sink_callback_call pipe_info item.name obj_data]
            | _, _ => []) := by
    intro priv priv1 ok c1 hset hres hinfo hfc hc
    rw [hc, ← hres]
    rw [← hres] at hinfo
    have hcached : cached_out_info
        ⟨item.name, item.type, item.handle, priv_data_t.sink priv1⟩ = priv1.out_info := rfl
    cases ok with
    | false =>
      refine ⟨⟨item.name, item.type, item.handle, priv_data_t.sink priv1⟩, c1, ?_, rfl,
        ⟨_, rfl⟩, ?_, ?_⟩
      · simp only [nns_sink_data_cb, henv, hset]
        rfl
      · rw [hcached, hinfo]
      · simpa using hfc
    | true =>
      cases hdo : d.data_obj with
      | none =>
        refine ⟨⟨item.name, item.type, item.handle, priv_data_t.sink priv1⟩,
          c1 ++ [Call.nns_convert_tensors_data d.data priv1.out_info_obj], ?_, rfl,
          ⟨_, rfl⟩, ?_, ?_⟩
        · simp only [nns_sink_data_cb, henv, hset, hdo]
          rfl
        · rw [hcached, hinfo]
        · rw [foreign_callbacks_append, hfc]
          simp [foreign_callbacks]
      | some obj =>
        refine ⟨⟨item.name, item.type, item.handle, priv_data_t.sink priv1⟩,
          c1 ++
            [Call.nns_convert_tensors_data d.data priv1.out_info_obj,
             Call.NewStringUTF item.name,
             Call.CallVoidMethod pipe_info.thiz pipe_info.priv_data.mid_sink_cb
               [jvalue.str item.name, jvalue.obj obj]] ++
            (if d.raises then [Call.ExceptionClear] else []) ++
            [Call.DeleteLocalRefString item.name, Call.DeleteLocalRef obj], ?_, rfl,
          ⟨_, rfl⟩, ?_, ?_⟩
        · simp only [nns_sink_data_cb, henv, hset, hdo]
          rfl
        · rw [hcached, hinfo]
        · rw [foreign_callbacks_append, foreign_callbacks_append, foreign_callbacks_append, hfc]
          cases d.raises <;> simp [foreign_callbacks, sink_callback_call]
  cases hpd : item.priv_data with
  | null =>
    obtain ⟨hres, hinfo⟩ := sink_priv_result
      { out_info := ml_tensors_info_create_extended, out_info_obj := 0 } d.info d.info_obj
    exact main { out_info := ml_tensors_info_create_extended, out_info_obj := 0 }
      (sink_priv_set_out_info
        { out_info := ml_tensors_info_create_extended, out_info_obj := 0 }
        d.info d.info_obj).2.1
      (sink_priv_set_out_info
        { out_info := ml_tensors_info_create_extended, out_info_obj := 0 }
        d.info d.info_obj).1
      (sink_priv_set_out_info
        { out_info := ml_tensors_info_create_extended, out_info_obj := 0 }
        d.info d.info_obj).2.2
      (by simp [nns_pipeline_sink_priv_set_out_info, hpd]) hres hinfo
      (sink_priv_foreign_callbacks _ _ _) (by simp [cached_out_info, hpd])
  | sink priv =>
    obtain ⟨hres, hinfo⟩ := sink_priv_result priv d.info d.info_obj
    exact main priv (sink_priv_set_out_info priv d.info d.info_obj).2.1
      (sink_priv_set_out_info priv d.info d.info_obj).1
      (sink_priv_set_out_info priv d.info d.info_obj).2.2
      (by simp [nns_pipeline_sink_priv_set_out_info, hpd]) hres hinfo
      (sink_priv_foreign_callbacks _ _ _) (by simp [cached_out_info, hpd])
  | video_sink v => exact absurd hpd (hp v)

theorem sink_deliveries_spec (pipe_info : pipeline_info_s) (ds : List sink_delivery) :
    ∀ item : element_data_s, (∀ d ∈ ds, d.env = true) →
      (∀ v, item.priv_data ≠ priv_data_t.video_sink v) →
      ∃ item1 calls, sink_deliveries pipe_info item ds = some (item1, calls) ∧
        item1.name = item.name ∧
        foreign_callbacks calls =
          expected_sink_callbacks pipe_info item.name (cached_out_info item) ds := by
  induction ds with
  | nil =>
    intro item _ _
    exact ⟨item, [], rfl, rfl, rfl⟩
  | cons d rest ih =>
    intro item henv hp
    obtain ⟨item1, c1, hcb, hname, ⟨p, hsink⟩, hcache, hfc⟩ :=
      sink_data_cb_step pipe_info item d (henv d (List.mem_cons_self d rest)) hp
    have hp1 : ∀ v, item1.priv_data ≠ priv_data_t.video_sink v := by
      intro v hv; rw [hsink] at hv; cases hv
    obtain ⟨item2, c2, hrest, hname2, hfc2⟩ :=
      ih item1 (fun e he => henv e (List.mem_cons_of_mem d he)) hp1
    refine ⟨item2, c1 ++ c2, ?_, hname2.trans hname, ?_⟩
    · simp only [sink_deliveries, hcb, hrest]
    · rw [foreign_callbacks_append, hfc, hfc2, hname, hcache]
      rfl

theorem expected_sink_callbacks_all_cached (pipe_info : pipeline_info_s) (name : String)
    (ds : List sink_delivery) :
    ∀ cached : ml_tensors_info_h, (∀ d ∈ ds, d.info_obj.isSome = true) →
      expected_sink_callbacks pipe_info name cached ds =
        ds.filterMap (fun d => d.data_obj.map (sink_callback_call pipe_info name)) := by
  induction ds with
  | nil => intro _ _; rfl
  | cons d rest ih =>
    intro cached hall
    have hd : d.info_obj.isSome = true := hall d (List.mem_cons_self d rest)
    have hrest := ih d.info (fun e he => hall e (List.mem_cons_of_mem d he))
    simp only [expected_sink_callbacks, hd, Bool.or_true, if_true, hrest]
    cases hdo : d.data_obj with
    | none => simp [List.filterMap_cons, hdo]
    | some obj => simp [List.filterMap_cons, hdo]

/-- C7. A sequence of deliveries to one sink entry, each with the runtime environment
available, is processed to its end, and the foreign sink callback is invoked, in delivery
order and with the entry's name, for exactly the deliveries whose descriptor caching and
buffer conversion both succeed; a failing delivery adds no callback and the later ones are
still delivered. When every descriptor conversion succeeds, the callbacks are those of the
deliveries whose buffer conversion succeeds, in order. -/
theorem sink_callbacks_in_delivery_order (pipe_info : pipeline_info_s)
    (item : element_data_s) (ds : List sink_delivery)
    (henv : ∀ d ∈ ds, d.env = true)
    (hp : ∀ v, item.priv_data ≠ priv_data_t.video_sink v) :
    ∃ item1 calls, sink_deliveries pipe_info item ds = some (item1, calls) ∧
      foreign_callbacks calls =
        expected_sink_callbacks pipe_info item.name (cached_out_info item) ds ∧
      ((∀ d ∈ ds, d.info_obj.isSome = true) →
        foreign_callbacks calls =
          ds.filterMap (fun d => d.data_obj.map (sink_callback_call pipe_info item.name))) := by
  obtain ⟨item1, calls, hrun, _, hfc⟩ := sink_deliveries_spec pipe_info ds item henv hp
  refine ⟨item1, calls, hrun, hfc, ?_⟩
  intro hall
  rw [hfc]
  exact expected_sink_callbacks_all_cached pipe_info item.name ds (cached_out_info item) hall

/-- Witness for C7: of three deliveries the second fails to convert; the first and the
third reach the foreign callback, in that order. -/
theorem sink_callbacks_in_delivery_order_witness :
    (∀ d ∈ sample_deliveries, d.env = true) ∧
    ∃ item1 calls, sink_deliveries sample_pipe sample_sink sample_deliveries
        = some (item1, calls) ∧
      foreign_callbacks calls =
        [sink_callback_call sample_pipe "sink" 41, sink_callback_call sample_pipe "sink" 43] := by
  obtain ⟨item1, calls, hrun, hfc, _⟩ :=
    sink_callbacks_in_delivery_order sample_pipe sample_sink sample_deliveries
      (by decide) (fun v h => by simp [sample_sink] at h)
  refine ⟨by decide, item1, calls, hrun, ?_⟩
  rw [hfc]
  decide

/-! ## A failed resolve -/

/-- C8. When resolving a name as a source, switch, valve, sink or video sink fails because
the engine reports a non-zero status, because the element is not a video overlay, or
because the insertion into the table is rejected, the context (so the registry) is what it
was before the call; and either the engine call failed and nothing else was called (no
handle was acquired), or the handle the engine gave has been released by the release
operation of its kind. -/
theorem resolve_failure_releases (type : nns_element_type_e) (pipe_info : pipeline_info_s)
    (name : String) (eng : engine_reply) (vs : Bool)
    (hfail : (resolve_outcome type pipe_info name eng vs).1 = false)
    (hcause : eng.status ≠ ML_ERROR_NONE ∨
      (type = NNS_ELEMENT_TYPE_VIDEO_SINK ∧ vs = false) ∨
      (nns_add_element_data pipe_info name
        { name := name, type := type, handle := eng.handle,
          priv_data := priv_data_t.null }).1 = false) :
    (resolve_outcome type pipe_info name eng vs).2.1 = pipe_info ∧
    ((eng.status ≠ ML_ERROR_NONE ∧
        (resolve_outcome type pipe_info name eng vs).2.2 =
          [acquire_call type pipe_info.pipeline_handle name]) ∨
      (eng.status = ML_ERROR_NONE ∧
        (resolve_outcome type pipe_info name eng vs).2.2 =
          [acquire_call type pipe_info.pipeline_handle name,
           release_call type eng.handle])) := by
  by_cases hv : type = NNS_ELEMENT_TYPE_VIDEO_SINK
  · subst hv
    simp only [resolve_outcome] at hfail ⊢
    unfold nns_get_video_sink_data at hfail ⊢
    cases hl : nns_get_element_data pipe_info name with
    | some item => simp [hl] at hfail
    | none =>
      by_cases hs : eng.status ≠ ML_ERROR_NONE
      · simp [hl, hs, acquire_call]
      · have hs2 : eng.status = ML_ERROR_NONE := not_not.1 hs
        cases vs with
        | false => simp [hl, hs2, acquire_call, release_call]
        | true =>
          rcases hcause with hc | hc | hc
          · exact absurd hs2 hc
          · exact absurd hc.2 (by simp)
          · simp [nns_add_element_data, hl] at hc
  · have houtcome : resolve_outcome type pipe_info name eng vs =
        (decide ((resolve type pipe_info name eng).1 ≠ 0), (resolve type pipe_info name eng).2.1,
          (resolve type pipe_info name eng).2.2) := by
      cases type <;> first | rfl | exact absurd rfl hv
    rw [houtcome] at hfail ⊢
    simp only [decide_eq_false_iff_not, not_not] at hfail
    rw [resolve_eq type hv] at hfail ⊢
    by_cases h0 : nns_get_element_handle pipe_info name type = 0
    · by_cases hs : eng.status ≠ ML_ERROR_NONE
      · simp [h0, hs]
      · have hs2 : eng.status = ML_ERROR_NONE := not_not.1 hs
        cases hl : nns_get_element_data pipe_info name with
        | some old =>
          simp [h0, hs2, nns_add_element_data, hl, nns_free_element_data, priv_destroy]
        | none =>
          rcases hcause with hc | hc | hc
          · exact absurd hs2 hc
          · exact absurd hc.1 hv
          · simp [nns_add_element_data, hl] at hc
    · rw [if_neg h0] at hfail
      exact absurd hfail h0

/-- Witness for C8: "vsink" is registered as a video sink and is asked for as a source; the
engine gives handle 7, the insertion is rejected, handle 7 is released. -/
theorem resolve_failure_releases_witness :
    (resolve_outcome NNS_ELEMENT_TYPE_SRC sample_video_pipe "vsink"
      { status := 0, handle := 7 } false).1 = false ∧
    (resolve_outcome NNS_ELEMENT_TYPE_SRC sample_video_pipe "vsink"
      { status := 0, handle := 7 } false).2.1 = sample_video_pipe :=
  ⟨by decide,
    (resolve_failure_releases NNS_ELEMENT_TYPE_SRC sample_video_pipe "vsink"
      { status := 0, handle := 7 } false (by decide) (Or.inr (Or.inr (by decide)))).1⟩

/-! ## Teardown -/

/-- C9 (as amended). A state-changed or sink-data callback makes no call at all when the
runtime environment cannot be obtained; neither callback looks at the liveness of its
context: with the environment available, for every context, torn down or not, the
state-changed callback invokes the foreign method and the sink-data callback of a fresh
entry starts by converting the (non-empty) descriptor. -/
theorem callbacks_gated_by_env_only :
    (∀ (pipe_info : pipeline_info_s) (state : Int) (raises : Bool),
      nns_pipeline_state_cb pipe_info state false raises = []) ∧
    (∀ (pipe_info : pipeline_info_s) (item : element_data_s) (d : sink_delivery),
      d.env = false → nns_sink_data_cb pipe_info item d = some (item, [])) ∧
    (∀ (ctx : context_s) (state : Int) (raises : Bool),
      nns_pipeline_state_cb ctx.info state true raises =
        Call.CallVoidMethod ctx.info.thiz ctx.info.priv_data.mid_state_cb [jvalue.int state] ::
          (if raises then [Call.ExceptionClear] else [])) ∧
    (∀ (ctx : context_s) (item : element_data_s) (d : sink_delivery),
      d.env = true → item.priv_data = priv_data_t.null →
      d.info ≠ ml_tensors_info_create_extended →
      ∃ item1 calls, nns_sink_data_cb ctx.info item d =
        some (item1, Call.nns_convert_tensors_info d.info :: calls)) := by
  refine ⟨?_, ?_, ?_, ?_⟩
  · intro pipe_info state raises
    simp [nns_pipeline_state_cb]
  · intro pipe_info item d hd
    simp [nns_sink_data_cb, hd]
  · intro ctx state raises
    simp [nns_pipeline_state_cb]
  · intro ctx item d henv hnull hne
    cases hio : d.info_obj with
    | none =>
      exact ⟨_, [], by
        simp [nns_sink_data_cb, henv, nns_pipeline_sink_priv_set_out_info, hnull,
          sink_priv_set_out_info, ml_tensors_info_is_equal, hne, hio]
        rfl⟩
    | some obj =>
      cases hdo : d.data_obj with
      | none =>
        exact ⟨_, _, by
          simp [nns_sink_data_cb, henv, nns_pipeline_sink_priv_set_out_info, hnull,
            sink_priv_set_out_info, ml_tensors_info_is_equal, hne, hio, hdo]
          exact ⟨rfl, rfl⟩⟩
      | some od =>
        exact ⟨_, _, by
          simp [nns_sink_data_cb, henv, nns_pipeline_sink_priv_set_out_info, hnull,
            sink_priv_set_out_info, ml_tensors_info_is_equal, hne, hio, hdo]
          exact ⟨rfl, rfl⟩⟩

/-- Witness for C9 (as amended): a delivery without runtime environment to `sample_sink`. -/
theorem callbacks_gated_by_env_only_witness :
    nns_sink_data_cb sample_pipe sample_sink
        { data := 1, info := sample_info, env := false, info_obj := some 21,
          data_obj := some 41, raises := false }
      = some (sample_sink, []) :=
  callbacks_gated_by_env_only.2.1 sample_pipe sample_sink
    { data := 1, info := sample_info, env := false, info_obj := some 21,
      data_obj := some 41, raises := false } rfl

/-- C9 fails as stated: after destroy on handle 1 the context is no longer live, yet a
state-changed callback arriving for it with the runtime environment available invokes the
foreign `stateChanged` method. -/
theorem state_cb_after_teardown_calls_foreign :
    ((nns_native_pipe_destroy sample_contexts 1).1 1).map (fun ctx => ctx.live) = some false ∧
    ((nns_native_pipe_destroy sample_contexts 1).1 1).map
        (fun ctx => nns_pipeline_state_cb ctx.info 4 true false)
      = some [Call.CallVoidMethod 200 11 [jvalue.int 4]] := by
  decide

/-- C10. Destroy on the null handle does nothing; a second destroy on a handle changes
nothing and makes no call; the two destroys of a live context together free each entry of
the registry once (private-data destructor and release of the handle) and destroy the
engine handle once. -/
theorem destroy_idempotent :
    (∀ contexts : context_table, nns_native_pipe_destroy contexts 0 = (contexts, [])) ∧
    (∀ (contexts : context_table) (handle : Nat),
      nns_native_pipe_destroy (nns_native_pipe_destroy contexts handle).1 handle =
        ((nns_native_pipe_destroy contexts handle).1, [])) ∧
    (∀ (contexts : context_table) (handle : Nat) (ctx : context_s),
      handle ≠ 0 → contexts handle = some ctx → ctx.live = true →
      (nns_native_pipe_destroy contexts handle).2 ++
        (nns_native_pipe_destroy (nns_native_pipe_destroy contexts handle).1 handle).2 =
      (ctx.info.element_handles.map (fun e => nns_free_element_data e.2)).flatten ++
        [Call.ml_pipeline_destroy ctx.info.pipeline_handle]) := by
  have hsecond : ∀ (contexts : context_table) (handle : Nat),
      nns_native_pipe_destroy (nns_native_pipe_destroy contexts handle).1 handle =
        ((nns_native_pipe_destroy contexts handle).1, []) := by
    intro contexts handle
    unfold nns_native_pipe_destroy
    by_cases h0 : handle = 0
    · simp [nns_destroy_pipe_info, h0]
    · cases hc : contexts handle with
      | none => simp [nns_destroy_pipe_info, h0, hc]
      | some ctx =>
        cases hl : ctx.live with
        | false => simp [nns_destroy_pipe_info, h0, hc, hl]
        | true =>
          have h1 : nns_destroy_pipe_info contexts handle =
              (Function.update contexts handle
                (some { live := false, info := { ctx.info with element_handles := [] } }),
              (ctx.info.element_handles.map (fun e => nns_free_element_data e.2)).flatten ++
                [Call.ml_pipeline_destroy ctx.info.pipeline_handle]) := by
            simp [nns_destroy_pipe_info, h0, hc, hl]
          rw [h1]
          simp [nns_destroy_pipe_info, h0]
  refine ⟨?_, hsecond, ?_⟩
  · intro contexts
    simp [nns_native_pipe_destroy, nns_destroy_pipe_info]
  · intro contexts handle ctx h0 hc hl
    rw [hsecond contexts handle]
    simp [nns_native_pipe_destroy, nns_destroy_pipe_info, h0, hc, hl]

/-- Witness for C10: handle 1 of `sample_contexts` is destroyed twice; the video sink's
window and handle are released once, the engine handle is destroyed once. -/
theorem destroy_idempotent_witness :
    (nns_native_pipe_destroy sample_contexts 1).2 ++
      (nns_native_pipe_destroy (nns_native_pipe_destroy sample_contexts 1).1 1).2 =
    [Call.ANativeWindow_release 5, Call.ml_pipeline_element_release_handle 9,
     Call.ml_pipeline_destroy 100] :=
  (destroy_idempotent.2.2 sample_contexts 1 { live := true, info := sample_video_pipe }
    (by decide) rfl rfl).trans (by decide)

/-! ## Removing a sink callback -/

theorem lookup_filter_other (l : List (String × element_data_s)) (name n : String)
    (hn : n ≠ name) :
    (l.filter (fun e => !decide (e.1 = name))).lookup n = l.lookup n := by
  induction l with
  | nil => rfl
  | cons e t ih =>
    obtain ⟨k, v⟩ := e
    by_cases hk : k = name
    · subst hk
      have hb : (n == k) = false := by simpa using hn
      simp only [List.filter_cons, decide_True, Bool.not_true, List.lookup, hb]
      simpa using ih
    · by_cases hnk : n = k
      · subst hnk
        simp [List.filter_cons, hk, List.lookup]
      · have hb : (n == k) = false := by simpa using hnk
        simp only [List.filter_cons, hk, decide_False, Bool.not_false, if_true, List.lookup, hb]
        exact ih

theorem lookup_filter_self (l : List (String × element_data_s)) (name : String) :
    (l.filter (fun e => !decide (e.1 = name))).lookup name = none := by
  induction l with
  | nil => rfl
  | cons e t ih =>
    obtain ⟨k, v⟩ := e
    by_cases hk : k = name
    · subst hk
      simp only [List.filter_cons, decide_True, Bool.not_true]
      simpa using ih
    · have hnk : ¬ name = k := fun h => hk h.symm
      have hb : (name == k) = false := by simpa using hnk
      simp only [List.filter_cons, hk, decide_False, Bool.not_false, if_true, List.lookup, hb]
      exact ih

/-- C11. removeSinkCallback on a name registered as a sink (with the non-null handle a
registered entry carries) returns true and leaves no entry under the name; on a name that
is absent or registered with another kind it returns false, makes no call and leaves the
context as it was. In both cases every other name resolves to the entry it had. -/
theorem remove_sink_cb_removes_only_the_sink (pipe_info : pipeline_info_s) (name : String) :
    (∀ item, nns_get_element_data pipe_info name = some item →
      item.type = NNS_ELEMENT_TYPE_SINK → item.handle ≠ 0 →
      (nns_native_pipe_remove_sink_cb pipe_info name).1 = true ∧
      (nns_native_pipe_remove_sink_cb pipe_info name).2.2 = nns_free_element_data item ∧
      nns_get_element_data (nns_native_pipe_remove_sink_cb pipe_info name).2.1 name = none ∧
      entry_count (nns_native_pipe_remove_sink_cb pipe_info name).2.1 name = 0) ∧
    ((nns_get_element_data pipe_info name = none ∨
        ∃ item, nns_get_element_data pipe_info name = some item ∧
          item.type ≠ NNS_ELEMENT_TYPE_SINK) →
      nns_native_pipe_remove_sink_cb pipe_info name = (false, pipe_info, [])) ∧
    (∀ n, n ≠ name →
      nns_get_element_data (nns_native_pipe_remove_sink_cb pipe_info name).2.1 n =
        nns_get_element_data pipe_info n) := by
  refine ⟨?_, ?_, ?_⟩
  · intro item hitem htype hhandle
    have hsink : nns_get_element_handle pipe_info name NNS_ELEMENT_TYPE_SINK = item.handle := by
      simp [nns_get_element_handle, hitem, htype]
    have hr : nns_native_pipe_remove_sink_cb pipe_info name =
        (true,
          { pipe_info with
            element_handles := pipe_info.element_handles.filter (fun e => !decide (e.1 = name)) },
          nns_free_element_data item) := by
      simp [nns_native_pipe_remove_sink_cb, hsink, hhandle, nns_remove_element_data, hitem]
    rw [hr]
    refine ⟨rfl, rfl, lookup_filter_self pipe_info.element_handles name, ?_⟩
    simp [entry_count, List.filter_filter]
  · intro h
    rcases h with h | ⟨item, hitem, htype⟩
    · simp [nns_native_pipe_remove_sink_cb, nns_get_element_handle, h]
    · simp [nns_native_pipe_remove_sink_cb, nns_get_element_handle, hitem, htype]
  · intro n hn
    unfold nns_native_pipe_remove_sink_cb
    by_cases hs : nns_get_element_handle pipe_info name NNS_ELEMENT_TYPE_SINK = 0
    · simp [hs]
    · simp only [hs, ne_eq, not_false_eq_true, if_true]
      unfold nns_remove_element_data
      cases hl : nns_get_element_data pipe_info name with
      | none => rfl
      | some item => exact lookup_filter_other pipe_info.element_handles name n hn

/-- Witness for C11: the callback of "sink" is removed from `sample_sink_pipe`; "src", a
source, is refused. -/
theorem remove_sink_cb_removes_only_the_sink_witness :
    nns_get_element_data sample_sink_pipe "sink" = some sample_sink ∧
    (nns_native_pipe_remove_sink_cb sample_sink_pipe "sink").1 = true ∧
    nns_get_element_data (nns_native_pipe_remove_sink_cb sample_sink_pipe "sink").2.1 "sink"
      = none ∧
    nns_native_pipe_remove_sink_cb sample_sink_pipe "src" = (false, sample_sink_pipe, []) := by
  have h := remove_sink_cb_removes_only_the_sink sample_sink_pipe "sink"
  have h1 := h.1 sample_sink (by decide) (by decide) (by decide)
  exact ⟨by decide, h1.1, h1.2.2.1,
    (remove_sink_cb_removes_only_the_sink sample_sink_pipe "src").2.1
      (Or.inr ⟨{ name := "src", type := NNS_ELEMENT_TYPE_SRC, handle := 8,
                 priv_data := priv_data_t.null }, by decide, by decide⟩)⟩

/-! ## The state-changed callback -/

/-- C12. With the runtime environment available, the state-changed callback invokes the
state-changed method of the context's foreign object exactly once, with the reported state
as its integer argument, and nothing else, except that an exception raised by that call is
cleared right after it. -/
theorem state_cb_invokes_once (pipe_info : pipeline_info_s) (state : Int) :
    nns_pipeline_state_cb pipe_info state true false =
      [Call.CallVoidMethod pipe_info.thiz pipe_info.priv_data.mid_state_cb
        [jvalue.int state]] ∧
    nns_pipeline_state_cb pipe_info state true true =
      [Call.CallVoidMethod pipe_info.thiz pipe_info.priv_data.mid_state_cb
        [jvalue.int state], Call.ExceptionClear] ∧
    ∀ raises : Bool,
      (foreign_callbacks (nns_pipeline_state_cb pipe_info state true raises)).length = 1 := by
  refine ⟨by simp [nns_pipeline_state_cb], by simp [nns_pipeline_state_cb], ?_⟩
  intro raises
  cases raises <;> simp [nns_pipeline_state_cb, foreign_callbacks]

/-! ## Control operations -/

/-- C14. Start, stop and flush make their one engine call and return true exactly when it
reports status zero; flush passes restart = true exactly when its argument is `JNI_TRUE`;
getState makes its one engine call and returns the reported state when the call succeeds
and the unknown-state code when it fails. None of them makes any other call (nothing is
thrown into the foreign runtime). -/
theorem control_operations_report_status (pipe_info : pipeline_info_s) (status state : Int)
    (start : jboolean) :
    nns_native_pipe_start pipe_info status =
      (decide (status = 0), [Call.ml_pipeline_start pipe_info.pipeline_handle]) ∧
    nns_native_pipe_stop pipe_info status =
      (decide (status = 0), [Call.ml_pipeline_stop pipe_info.pipeline_handle]) ∧
    nns_native_pipe_flush pipe_info start status =
      (decide (status = 0),
        [Call.ml_pipeline_flush pipe_info.pipeline_handle (decide (start = JNI_TRUE))]) ∧
    nns_native_pipe_get_state pipe_info status state =
      ((if status = 0 then state else ML_PIPELINE_STATE_UNKNOWN),
        [Call.ml_pipeline_get_state pipe_info.pipeline_handle]) := by
  by_cases h : status = 0
  · simp [nns_native_pipe_start, nns_native_pipe_stop, nns_native_pipe_flush,
      nns_native_pipe_get_state, ML_ERROR_NONE, h]
  · simp [nns_native_pipe_start, nns_native_pipe_stop, nns_native_pipe_flush,
      nns_native_pipe_get_state, ML_ERROR_NONE, h]

/-! ## The pad list of a switch -/

theorem set_pad_elements_fills (P : List String) :
    ∀ (k i : Nat) (acc : List (Option String) × List Call),
      P.length - i = k → i ≤ P.length → acc.1.length = P.length →
      (∀ j, j < i → acc.1[j]? = (P.map some)[j]?) →
      (set_pad_elements P P.length i acc).1 = P.map some := by
  intro k
  induction k with
  | zero =>
    intro i acc hk hle hlen hpre
    have hi : i = P.length := by omega
    rw [set_pad_elements, dif_neg (by omega)]
    apply List.ext_getElem?
    intro n
    by_cases hn : n < i
    · exact hpre n hn
    · rw [List.getElem?_eq_none (by omega), List.getElem?_eq_none (by simp; omega)]
  | succ k ih =>
    intro i acc hk hle hlen hpre
    have hi : i < P.length := by omega
    rw [set_pad_elements, dif_pos hi]
    apply ih (i + 1)
    · omega
    · omega
    · simp [hlen]
    · intro j hj
      by_cases hji : j = i
      · subst hji
        simp only
        rw [List.getElem?_set_self (by omega)]
        simp [List.getD_eq_getElem?_getD, List.getElem?_eq_getElem hi]
      · simp only
        rw [List.getElem?_set_ne (fun h => hji h.symm)]
        exact hpre j (by omega)

/-- C13 (as amended). For a switch name not yet in the registry for which the engine
yields a non-null switch handle and a pad list P, getSwitchPads registers the switch entry
itself; when P is not empty (and the array can be allocated) it returns an array of the
length of P whose i-th element is P[i]; when P is empty it returns `NULL`, no array. -/
theorem get_switch_pads_resolves_and_copies (pipe_info : pipeline_info_s) (name : String)
    (eng : engine_reply) (pads : pad_list_reply)
    (habsent : nns_get_element_data pipe_info name = none)
    (heng : eng.status = ML_ERROR_NONE) (hh : eng.handle ≠ 0)
    (hpads : pads.status = ML_ERROR_NONE) :
    nns_get_element_data (nns_native_pipe_get_switch_pads pipe_info name eng pads true).2.1 name
      = some { name := name, type := NNS_ELEMENT_TYPE_SWITCH, handle := eng.handle,
               priv_data := priv_data_t.null } ∧
    (nns_native_pipe_get_switch_pads pipe_info name eng pads true).1 =
      (if pads.pad_list = [] then none else some (pads.pad_list.map some)) := by
  have hl : pipe_info.element_handles.lookup name = none := habsent
  have h0 : nns_get_element_handle pipe_info name NNS_ELEMENT_TYPE_SWITCH = 0 := by
    simp [nns_get_element_handle, habsent]
  have hr : nns_get_switch_handle pipe_info name eng =
      (eng.handle,
        { pipe_info with
          element_handles := pipe_info.element_handles ++
            [(name, { name := name, type := NNS_ELEMENT_TYPE_SWITCH, handle := eng.handle,
                      priv_data := priv_data_t.null })] },
        [Call.ml_pipeline_switch_get_handle pipe_info.pipeline_handle name]) := by
    simp [nns_get_switch_handle, h0, heng, nns_add_element_data, habsent]
  have hlook := lookup_append_absent pipe_info.element_handles name
    { name := name, type := NNS_ELEMENT_TYPE_SWITCH, handle := eng.handle,
      priv_data := priv_data_t.null } hl
  unfold nns_native_pipe_get_switch_pads
  simp only [hr, hh, if_false, hpads, ne_eq, not_true_eq_false]
  by_cases hP : pads.pad_list = []
  · simp [hP, nns_get_element_data, hlook]
  · have hpos : pads.pad_list.length > 0 := List.length_pos.2 hP
    have hfill := set_pad_elements_fills pads.pad_list pads.pad_list.length 0
      (List.replicate pads.pad_list.length none, []) (by omega) (by omega) (by simp)
      (fun j hj => absurd hj (by omega))
    simp [hP, hpos, hfill, nns_get_element_data, hlook]

/-- Witness for C13 (as amended): the pads "a", "b" of the unresolved switch "sw". -/
theorem get_switch_pads_resolves_and_copies_witness :
    nns_get_element_data sample_pipe "sw" = none ∧
    (nns_native_pipe_get_switch_pads sample_pipe "sw" { status := 0, handle := 5 }
      { status := 0, pad_list := ["a", "b"] } true).1 = some [some "a", some "b"] :=
  ⟨by decide,
    (get_switch_pads_resolves_and_copies sample_pipe "sw" { status := 0, handle := 5 }
      { status := 0, pad_list := ["a", "b"] } (by decide) (by decide) (by decide)
      (by decide)).2.trans (by decide)⟩

/-- C13 fails as stated: for the empty pad list getSwitchPads returns `NULL`, not a sequence
of length 0 (the switch entry is registered all the same). -/
theorem get_switch_pads_empty_list_is_null :
    (nns_native_pipe_get_switch_pads sample_pipe "sw" { status := 0, handle := 5 }
      { status := 0, pad_list := [] } true).1 = none ∧
    nns_get_element_handle
      (nns_native_pipe_get_switch_pads sample_pipe "sw" { status := 0, handle := 5 }
        { status := 0, pad_list := [] } true).2.1 "sw" NNS_ELEMENT_TYPE_SWITCH = 5 := by
  decide

/-! ## The custom-filter invoke callback -/

/-- C15. The custom-filter invoke callback returns 0 exactly when (the context and the
runtime environment being there) the input conversion succeeds, the foreign invoke raises
nothing and returns a non-null object, and that object parses into output data; it returns
1 exactly when the input conversion succeeds and the foreign invoke returns null without
raising; in every other case it returns -1, a negative value. -/
theorem customfilter_invoke_result (user_data : Option customfilter_info_s) (inp : gpointer)
    (r : invoke_reply) :
    ((nns_customfilter_invoke user_data inp r).1 = 0 ↔
      (user_data.isSome = true ∧ r.env = true ∧ r.in_obj.isSome = true ∧ r.raises = false ∧
        r.out_obj ≠ 0 ∧ r.parse_ok = true)) ∧
    ((nns_customfilter_invoke user_data inp r).1 = 1 ↔
      (user_data.isSome = true ∧ r.env = true ∧ r.in_obj.isSome = true ∧ r.raises = false ∧
        r.out_obj = 0)) ∧
    ((nns_customfilter_invoke user_data inp r).1 ≠ 0 →
      (nns_customfilter_invoke user_data inp r).1 ≠ 1 →
      (nns_customfilter_invoke user_data inp r).1 = -1 ∧
      (nns_customfilter_invoke user_data inp r).1 < 0) := by
  obtain ⟨env, in_obj, raises, out_obj, parse_ok⟩ := r
  cases user_data with
  | none => simp [nns_customfilter_invoke]
  | some pipe_info =>
    cases env with
    | false => simp [nns_customfilter_invoke]
    | true =>
      cases in_obj with
      | none => simp [nns_customfilter_invoke]
      | some obj =>
        cases raises with
        | true => simp [nns_customfilter_invoke]
        | false =>
          by_cases ho : out_obj = 0
          · simp [nns_customfilter_invoke, ho]
          · cases parse_ok <;> simp [nns_customfilter_invoke, ho]

/-! ## The cache update seen from its caller -/

/-- C16, evaluated where it fails. Whenever the cache update reports success the cached
descriptor is the descriptor just observed. The cached foreign object is not always its
conversion: on a fresh sink entry whose first descriptor is the empty one, the update
reports success without converting, the cached reference stays `NULL`, and the sink
callback hands that `NULL` reference to the data conversion. -/
theorem fresh_cache_accepts_empty_descriptor :
    (∀ (item : element_data_s) (d : ml_tensors_info_h) (conv : Option jobject)
        (r : Bool × element_data_s × List Call),
      nns_pipeline_sink_priv_set_out_info item d conv = some r → r.1 = true →
      cached_out_info r.2.1 = d) ∧
    nns_pipeline_sink_priv_set_out_info sample_sink ml_tensors_info_create_extended (some 21)
      = some (true,
          { sample_sink with
            priv_data := priv_data_t.sink
              { out_info := ml_tensors_info_create_extended, out_info_obj := 0 } },
          []) ∧
    (nns_sink_data_cb sample_pipe sample_sink
        { data := 1, info := ml_tensors_info_create_extended, env := true,
          info_obj := some 21, data_obj := some 41, raises := false }).map
      (fun r => r.2.head?) = some (some (Call.nns_convert_tensors_data 1 0)) := by
  refine ⟨?_, by decide, by decide⟩
  intro item d conv r hr hok
  have hcore : ∀ priv : pipeline_sink_priv_data_s,
      (sink_priv_set_out_info priv d conv).1 = true →
      (sink_priv_set_out_info priv d conv).2.1.out_info = d := by
    intro priv h
    obtain ⟨hres, hinfo⟩ := sink_priv_result priv d conv
    rw [hres] at h
    rw [hinfo, if_pos h]
  unfold nns_pipeline_sink_priv_set_out_info at hr
  cases hpd : item.priv_data with
  | null =>
    simp only [hpd, Option.some.injEq] at hr
    subst hr
    exact hcore _ hok
  | sink priv =>
    simp only [hpd, Option.some.injEq] at hr
    subst hr
    exact hcore _ hok
  | video_sink v => simp [hpd] at hr

/-- C17. When the incoming descriptor equals the cached one, the cache update of a sink
entry reports success and makes no call (no conversion, no reference created or released);
the cached descriptor and the cached foreign reference are what they were, and an entry
that had private data is left as it was. -/
theorem equal_descriptor_keeps_cache (item : element_data_s) (d : ml_tensors_info_h)
    (conv : Option jobject) (hp : ∀ v, item.priv_data ≠ priv_data_t.video_sink v)
    (heq : d = cached_out_info item) :
    ∃ item1, nns_pipeline_sink_priv_set_out_info item d conv = some (true, item1, []) ∧
      cached_out_info item1 = cached_out_info item ∧
      cached_out_info_obj item1 = cached_out_info_obj item ∧
      item1.name = item.name ∧ item1.type = item.type ∧ item1.handle = item.handle ∧
      (item.priv_data ≠ priv_data_t.null → item1 = item) := by
  subst heq
  cases hpd : item.priv_data with
  | null =>
    refine ⟨⟨item.name, item.type, item.handle,
      priv_data_t.sink ⟨ml_tensors_info_create_extended, 0⟩⟩, ?_, ?_⟩
    · simp [nns_pipeline_sink_priv_set_out_info, hpd, cached_out_info, sink_priv_set_out_info,
        ml_tensors_info_is_equal]
    · simp [cached_out_info, cached_out_info_obj, hpd]
  | sink p =>
    have hitem : ({ item with priv_data := priv_data_t.sink p } : element_data_s) = item := by
      cases item; simp only at hpd; subst hpd; rfl
    refine ⟨item, ?_, rfl, rfl, rfl, rfl, rfl, fun _ => rfl⟩
    simp [nns_pipeline_sink_priv_set_out_info, hpd, cached_out_info, sink_priv_set_out_info,
      ml_tensors_info_is_equal, hitem]
  | video_sink v => exact absurd hpd (hp v)

/-- Witness for C17: the sink entry caching `sample_info` is offered `sample_info` again. -/
theorem equal_descriptor_keeps_cache_witness :
    sample_info = cached_out_info sample_sink_cached ∧
    ∃ item1, nns_pipeline_sink_priv_set_out_info sample_sink_cached sample_info (some 5)
        = some (true, item1, []) ∧
      cached_out_info_obj item1 = cached_out_info_obj sample_sink_cached := by
  obtain ⟨item1, h1, _, h3, _⟩ :=
    equal_descriptor_keeps_cache sample_sink_cached sample_info (some 5)
      (fun v h => by simp [sample_sink_cached] at h) (by decide)
  exact ⟨by decide, item1, h1, h3⟩

/-! ## Window references are balanced -/

theorem acquired_of_append (w : ANativeWindow) (a b : List Call) :
    acquired_of w (a ++ b) = acquired_of w a + acquired_of w b := by
  simp [acquired_of]

theorem released_of_append (w : ANativeWindow) (a b : List Call) :
    released_of w (a ++ b) = released_of w a + released_of w b := by
  simp [released_of]

theorem acquired_append (a b : List Call) : acquired (a ++ b) = acquired a + acquired b := by
  simp [acquired]

theorem released_append (a b : List Call) : released (a ++ b) = released a + released b := by
  simp [released]

/-- One initializeSurface on the window slots keeps the balance of every window. -/
theorem set_window_balance_of (priv : pipeline_video_sink_priv_data_s) (h : gpointer)
    (w x : ANativeWindow) (hx : x ≠ 0) :
    acquired_of x
        (Call.ANativeWindow_fromSurface w :: (video_sink_priv_set_window priv h w).2) +
      held_of x priv =
    released_of x
        (Call.ANativeWindow_fromSurface w :: (video_sink_priv_set_window priv h w).2) +
      held_of x (video_sink_priv_set_window priv h w).1 := by
  obtain ⟨win, old⟩ := priv
  simp only [video_sink_priv_set_window, release_native_window, acquired_of, released_of,
    held_of]
  by_cases h1 : win = 0 <;> by_cases h2 : win = w <;> by_cases h3 : old = 0 <;>
    by_cases h4 : w = x <;> by_cases h5 : win = x <;> by_cases h6 : old = x <;>
    by_cases h7 : w = 0 <;> simp_all

/-- One initializeSurface on the window slots keeps the balance of all references. -/
theorem set_window_balance (priv : pipeline_video_sink_priv_data_s) (h : gpointer)
    (w : ANativeWindow) :
    acquired (Call.ANativeWindow_fromSurface w :: (video_sink_priv_set_window priv h w).2) +
      held priv =
    released (Call.ANativeWindow_fromSurface w :: (video_sink_priv_set_window priv h w).2) +
      held (video_sink_priv_set_window priv h w).1 := by
  obtain ⟨win, old⟩ := priv
  simp only [video_sink_priv_set_window, release_native_window, acquired, released, held]
  by_cases h1 : win = 0 <;> by_cases h2 : win = w <;> by_cases h3 : old = 0 <;>
    by_cases h7 : w = 0 <;> simp_all

/-- One finalizeSurface on the window slots keeps the balance of every window and of all
references. -/
theorem finalize_balance (priv : pipeline_video_sink_priv_data_s) (h : gpointer) :
    (∀ x, x ≠ 0 →
      acquired_of x
          (Call.gst_video_overlay_set_window_handle h 0 ::
            release_native_window priv.old_window) +
        held_of x priv =
      released_of x
          (Call.gst_video_overlay_set_window_handle h 0 ::
            release_native_window priv.old_window) +
        held_of x { window := 0, old_window := priv.window }) ∧
    acquired
        (Call.gst_video_overlay_set_window_handle h 0 ::
          release_native_window priv.old_window) +
      held priv =
    released
        (Call.gst_video_overlay_set_window_handle h 0 ::
          release_native_window priv.old_window) +
      held { window := 0, old_window := priv.window } := by
  obtain ⟨win, old⟩ := priv
  constructor
  · intro x hx
    have hx0 : ¬ 0 = x := fun e => hx e.symm
    simp only [release_native_window, acquired_of, released_of, held_of]
    by_cases h3 : old = 0 <;> by_cases h5 : win = x <;> by_cases h6 : old = x <;>
      simp_all
  · simp only [release_native_window, acquired, released, held]
    by_cases h1 : win = 0 <;> by_cases h3 : old = 0 <;> simp_all

/-- The destructor of the window slots releases exactly what the slots hold. -/
theorem priv_free_balance (priv : pipeline_video_sink_priv_data_s) :
    (∀ x, x ≠ 0 →
      acquired_of x (nns_pipeline_video_sink_priv_free priv) = 0 ∧
      released_of x (nns_pipeline_video_sink_priv_free priv) = held_of x priv) ∧
    acquired (nns_pipeline_video_sink_priv_free priv) = 0 ∧
    released (nns_pipeline_video_sink_priv_free priv) = held priv := by
  obtain ⟨win, old⟩ := priv
  refine ⟨?_, ?_, ?_⟩
  · intro x hx
    simp only [nns_pipeline_video_sink_priv_free, release_native_window, acquired_of,
      released_of, held_of]
    by_cases h1 : win = 0 <;> by_cases h3 : old = 0 <;> by_cases h5 : win = x <;>
      by_cases h6 : old = x <;> simp_all
  · simp only [nns_pipeline_video_sink_priv_free, release_native_window, acquired]
    by_cases h1 : win = 0 <;> by_cases h3 : old = 0 <;> simp_all
  · simp only [nns_pipeline_video_sink_priv_free, release_native_window, released, held]
    by_cases h1 : win = 0 <;> by_cases h3 : old = 0 <;> simp_all

/-- Initialize on an entry whose private data is absent or a video sink's. -/
theorem initialize_surface_entry (pipe_info : pipeline_info_s) (name : String)
    (edata : element_data_s) (eng : engine_reply) (vs : Bool) (w : ANativeWindow)
    (h : nns_get_element_data pipe_info name = some edata)
    (hp : ∀ s, edata.priv_data ≠ priv_data_t.sink s) :
    nns_native_pipe_initialize_surface pipe_info name eng vs w =
      some (true,
        store_element_data pipe_info name
          { edata with
            priv_data := priv_data_t.video_sink
              (video_sink_priv_set_window (video_priv_of edata.priv_data) edata.handle w).1 },
        Call.ANativeWindow_fromSurface w ::
          (video_sink_priv_set_window (video_priv_of edata.priv_data) edata.handle w).2) := by
  cases hpd : edata.priv_data with
  | null =>
    simp [nns_native_pipe_initialize_surface,
      video_sink_data_found pipe_info name edata eng vs h, hpd, video_priv_of]
  | sink p => exact absurd hpd (hp p)
  | video_sink v =>
    simp [nns_native_pipe_initialize_surface,
      video_sink_data_found pipe_info name edata eng vs h, hpd, video_priv_of]

/-- Finalize on an entry whose private data is absent or a video sink's. -/
theorem finalize_surface_entry (pipe_info : pipeline_info_s) (name : String)
    (edata : element_data_s) (eng : engine_reply) (vs : Bool)
    (h : nns_get_element_data pipe_info name = some edata)
    (hp : ∀ s, edata.priv_data ≠ priv_data_t.sink s) :
    ∃ pipe_info1 edata1,
      nns_native_pipe_finalize_surface pipe_info name eng vs =
        some (true, pipe_info1,
          Call.gst_video_overlay_set_window_handle edata.handle 0 ::
            release_native_window (video_priv_of edata.priv_data).old_window) ∧
      nns_get_element_data pipe_info1 name = some edata1 ∧
      (∀ s, edata1.priv_data ≠ priv_data_t.sink s) ∧
      video_priv_of edata1.priv_data =
        { window := 0, old_window := (video_priv_of edata.priv_data).window } := by
  cases hpd : edata.priv_data with
  | null =>
    refine ⟨pipe_info, edata, ?_, h, hp, ?_⟩
    · simp [nns_native_pipe_finalize_surface,
        video_sink_data_found pipe_info name edata eng vs h, hpd, video_priv_of,
        release_native_window]
    · simp [hpd, video_priv_of]
  | sink p => exact absurd hpd (hp p)
  | video_sink v =>
    refine ⟨_, _, finalize_surface_bound pipe_info name edata v eng vs h hpd,
      get_after_store pipe_info name edata _ h, ?_, ?_⟩
    · intro s hs; cases hs
    · simp [video_priv_of]

theorem surface_run_balance (name : String) (ops : List surface_op) :
    ∀ (pipe_info : pipeline_info_s) (edata : element_data_s),
      nns_get_element_data pipe_info name = some edata →
      (∀ s, edata.priv_data ≠ priv_data_t.sink s) →
      ∃ pipe_info1 calls edata1,
        surface_run pipe_info name ops = some (pipe_info1, calls) ∧
        nns_get_element_data pipe_info1 name = some edata1 ∧
        (∀ s, edata1.priv_data ≠ priv_data_t.sink s) ∧
        (∀ x, x ≠ 0 →
          acquired_of x calls + held_of x (video_priv_of edata.priv_data) =
            released_of x calls + held_of x (video_priv_of edata1.priv_data)) ∧
        acquired calls + held (video_priv_of edata.priv_data) =
          released calls + held (video_priv_of edata1.priv_data) := by
  induction ops with
  | nil =>
    intro pipe_info edata h hp
    exact ⟨pipe_info, [], edata, rfl, h, hp, fun x _ => by simp [acquired_of, released_of],
      by simp [acquired, released]⟩
  | cons op rest ih =>
    intro pipe_info edata h hp
    cases op with
    | init eng vs w =>
      have hstep := initialize_surface_entry pipe_info name edata eng vs w h hp
      have hget := get_after_store pipe_info name edata
        { edata with
          priv_data := priv_data_t.video_sink
            (video_sink_priv_set_window (video_priv_of edata.priv_data) edata.handle w).1 } h
      obtain ⟨pipe_info1, calls2, edata1, hrun, hget1, hp1, hbal, htot⟩ :=
        ih _ _ hget (fun s hs => by cases hs)
      refine ⟨pipe_info1,
        (Call.ANativeWindow_fromSurface w ::
          (video_sink_priv_set_window (video_priv_of edata.priv_data) edata.handle w).2) ++
          calls2, edata1, ?_, hget1, hp1, ?_, ?_⟩
      · simp only [surface_run, hstep, hrun]
      · intro x hx
        have h1 := set_window_balance_of (video_priv_of edata.priv_data) edata.handle w x hx
        have h2 : acquired_of x calls2 +
              held_of x
                (video_sink_priv_set_window (video_priv_of edata.priv_data) edata.handle w).1 =
            released_of x calls2 + held_of x (video_priv_of edata1.priv_data) := hbal x hx
        rw [acquired_of_append, released_of_append]
        omega
      · have h1 := set_window_balance (video_priv_of edata.priv_data) edata.handle w
        have h2 : acquired calls2 +
              held
                (video_sink_priv_set_window (video_priv_of edata.priv_data) edata.handle w).1 =
            released calls2 + held (video_priv_of edata1.priv_data) := htot
        rw [acquired_append, released_append]
        omega
    | fin eng vs =>
      obtain ⟨pipeA, edataA, hstep, hgetA, hpA, hprivA⟩ :=
        finalize_surface_entry pipe_info name edata eng vs h hp
      obtain ⟨pipe_info1, calls2, edata1, hrun, hget1, hp1, hbal, htot⟩ :=
        ih pipeA edataA hgetA hpA
      obtain ⟨hf1, hf2⟩ := finalize_balance (video_priv_of edata.priv_data) edata.handle
      refine ⟨pipe_info1,
        (Call.gst_video_overlay_set_window_handle edata.handle 0 ::
          release_native_window (video_priv_of edata.priv_data).old_window) ++ calls2,
        edata1, ?_, hget1, hp1, ?_, ?_⟩
      · simp only [surface_run, hstep, hrun]
      · intro x hx
        have h1 := hf1 x hx
        have h2 := hbal x hx
        rw [hprivA] at h2
        rw [acquired_of_append, released_of_append]
        omega
      · rw [hprivA] at htot
        rw [acquired_append, released_append]
        omega

/-- C18. For every sequence of initializeSurface and finalizeSurface calls on a video-sink
entry that starts without private data, the sequence is processed to its end and after it,
for every window and in total, the references acquired equal the references released plus
the slots (active, previous) holding them; so no reference is released that is not held,
none twice. After the destructor of the private data has run, the references released
equal the references acquired, for every window and in total. (A prefix of a sequence is a
sequence, so this holds after each call.) -/
theorem window_references_balanced (pipe_info : pipeline_info_s) (name : String)
    (edata : element_data_s) (ops : List surface_op)
    (h : nns_get_element_data pipe_info name = some edata)
    (hfresh : edata.priv_data = priv_data_t.null) :
    ∃ pipe_info1 calls edata1,
      surface_run pipe_info name ops = some (pipe_info1, calls) ∧
      nns_get_element_data pipe_info1 name = some edata1 ∧
      (∀ x, x ≠ 0 →
        acquired_of x calls =
          released_of x calls + held_of x (video_priv_of edata1.priv_data)) ∧
      acquired calls = released calls + held (video_priv_of edata1.priv_data) ∧
      (∀ x, x ≠ 0 →
        released_of x
            (calls ++ nns_pipeline_video_sink_priv_free (video_priv_of edata1.priv_data)) =
          acquired_of x
            (calls ++ nns_pipeline_video_sink_priv_free (video_priv_of edata1.priv_data))) ∧
      released (calls ++ nns_pipeline_video_sink_priv_free (video_priv_of edata1.priv_data)) =
        acquired
          (calls ++ nns_pipeline_video_sink_priv_free (video_priv_of edata1.priv_data)) := by
  obtain ⟨pipe_info1, calls, edata1, hrun, hget, _, hbal, htot⟩ :=
    surface_run_balance name ops pipe_info edata h (fun s hs => by rw [hfresh] at hs; cases hs)
  obtain ⟨hfree_of, hfree_acq, hfree_rel⟩ := priv_free_balance (video_priv_of edata1.priv_data)
  have hzero : ∀ x, x ≠ 0 → held_of x (video_priv_of edata.priv_data) = 0 := by
    intro x hx
    have hx0 : ¬ 0 = x := fun e => hx e.symm
    simp [hfresh, video_priv_of, held_of, hx0]
  have hzero_tot : held (video_priv_of edata.priv_data) = 0 := by
    simp [hfresh, video_priv_of, held]
  refine ⟨pipe_info1, calls, edata1, hrun, hget, ?_, ?_, ?_, ?_⟩
  · intro x hx
    have h1 := hbal x hx
    rw [hzero x hx] at h1
    omega
  · rw [hzero_tot] at htot
    omega
  · intro x hx
    have h1 := hbal x hx
    rw [hzero x hx] at h1
    obtain ⟨h2, h3⟩ := hfree_of x hx
    rw [acquired_of_append, released_of_append]
    omega
  · rw [hzero_tot] at htot
    rw [acquired_append, released_append]
    omega

/-- Witness for C18: five surface calls on the fresh video sink "vsink". -/
theorem window_references_balanced_witness :
    nns_get_element_data sample_fresh_video_pipe "vsink" =
      some { name := "vsink", type := NNS_ELEMENT_TYPE_VIDEO_SINK, handle := 9,
             priv_data := priv_data_t.null } ∧
    ∃ pipe_info1 calls edata1,
      surface_run sample_fresh_video_pipe "vsink" sample_surface_ops
        = some (pipe_info1, calls) ∧
      nns_get_element_data pipe_info1 "vsink" = some edata1 ∧
      acquired calls = released calls + held (video_priv_of edata1.priv_data) := by
  obtain ⟨p1, calls, e1, h1, h2, _, h4, _⟩ :=
    window_references_balanced sample_fresh_video_pipe "vsink"
      { name := "vsink", type := NNS_ELEMENT_TYPE_VIDEO_SINK, handle := 9,
        priv_data := priv_data_t.null }
      sample_surface_ops (by decide) rfl
  exact ⟨by decide, p1, calls, e1, h1, h2, h4⟩

/-! ## The kind of the entry a video-sink resolve returns -/

/-- C19, evaluated where it fails. Video-sink resolution returns whatever entry is stored
under the name, of any kind: for "sink", registered as a sink, it returns the sink entry;
initializeSurface then stores video-sink private data (window 5) in that sink entry, and on
a sink entry that has cached a descriptor it reads the sink's private data as window
slots (outside the model: `none`). -/
theorem video_sink_resolve_ignores_kind :
    (∀ (pipe_info : pipeline_info_s) (name : String) (item : element_data_s)
        (eng : engine_reply) (vs : Bool),
      nns_get_element_data pipe_info name = some item →
      nns_get_video_sink_data pipe_info name eng vs = (some item, pipe_info, [])) ∧
    (nns_get_video_sink_data sample_sink_pipe "sink" { status := 0, handle := 0 } true).1
      = some sample_sink ∧
    sample_sink.type = NNS_ELEMENT_TYPE_SINK ∧
    (nns_native_pipe_initialize_surface sample_sink_pipe "sink"
        { status := 0, handle := 0 } true 5).map
      (fun r => nns_get_element_data r.2.1 "sink")
      = some (some
          { sample_sink with
            priv_data := priv_data_t.video_sink { window := 5, old_window := 0 } }) ∧
    nns_native_pipe_initialize_surface sample_cached_sink_pipe "sink"
        { status := 0, handle := 0 } true 5 = none ∧
    nns_native_pipe_finalize_surface sample_cached_sink_pipe "sink"
        { status := 0, handle := 0 } true = none := by
  refine ⟨?_, by decide, by decide, by decide, by decide, by decide⟩
  intro pipe_info name item eng vs h
  exact video_sink_data_found pipe_info name item eng vs h

/-! ## Service agent client -/

/-- C20. With the service feature enabled, start, stop, destroy, getstate and getdesc of the
service API return `ML_ERROR_INVALID_PARAMETER` for a null handle and `ML_ERROR_NONE` for
every non-null handle, whatever result code (and state or description) the remote call
reports. -/
theorem service_calls_ignore_remote_result (feature_ret : Int) (h : Option ml_service_s)
    (out_result remote_state : Int) (remote_desc : String)
    (hfeature : feature_ret = ML_ERROR_NONE) :
    (ml_service_start_pipeline feature_ret h out_result).1 =
      (if h.isNone then ML_ERROR_INVALID_PARAMETER else ML_ERROR_NONE) ∧
    (ml_service_stop_pipeline feature_ret h out_result).1 =
      (if h.isNone then ML_ERROR_INVALID_PARAMETER else ML_ERROR_NONE) ∧
    (ml_service_destroy_pipeline feature_ret h out_result).1 =
      (if h.isNone then ML_ERROR_INVALID_PARAMETER else ML_ERROR_NONE) ∧
    (ml_service_getstate_pipeline feature_ret h out_result remote_state).1 =
      (if h.isNone then ML_ERROR_INVALID_PARAMETER else ML_ERROR_NONE) ∧
    (ml_service_getdesc_pipeline feature_ret h out_result remote_desc).1 =
      (if h.isNone then ML_ERROR_INVALID_PARAMETER else ML_ERROR_NONE) := by
  subst hfeature
  cases h <;>
    simp [ml_service_start_pipeline, ml_service_stop_pipeline, ml_service_destroy_pipeline,
      ml_service_getstate_pipeline, ml_service_getdesc_pipeline]

/-- Witness for C20: the remote start of service 3 reports the error -5; the function
returns `ML_ERROR_NONE`. -/
theorem service_calls_ignore_remote_result_witness :
    (0 : Int) = ML_ERROR_NONE ∧
    (ml_service_start_pipeline 0 (some { id := 3, service_name := "svc" }) (-5)).1
      = ML_ERROR_NONE :=
  ⟨rfl,
    (service_calls_ignore_remote_result 0 (some { id := 3, service_name := "svc" }) (-5) 4
      "desc" rfl).1⟩

end NNStreamer
